import Mathlib

/-!
Verification of the differential pipeline-state application and capability
probing unit (gl_state.cpp and gl_device.cpp of the OpenGL renderer backend).

The data model and every operation below are shallow embeddings of the C++
source.  GL handles (GLuint) are modelled as Nat with zero as the unbound
sentinel; GLint quantities are modelled as Int; GLclampd depth-range values
are only ever compared for equality by the diff algorithm, so they are
modelled as Int as well.  Driver calls (gl* functions) are reified as an
inductive type of call records, and every Apply routine returns the updated
applied-state value together with the list of calls it would issue, in
source order.
-/

/-- Resource handle (GLuint in the source); zero is the unbound sentinel. -/
abbrev Handle := Nat

/-- GL enumerant values used by the embedded calls. -/
def GL_READ_FRAMEBUFFER : Nat := 0x8CA8

def GL_DRAW_FRAMEBUFFER : Nat := 0x8CA9

def GL_CLIP_DISTANCE0 : Nat := 0x3000

def GL_CLAMP_FRAGMENT_COLOR : Nat := 0x891B

def GL_SAMPLE_ALPHA_TO_COVERAGE : Nat := 0x809E

def GL_SAMPLE_ALPHA_TO_ONE : Nat := 0x809F

def GL_RASTERIZER_DISCARD : Nat := 0x8C89

def GL_STENCIL_TEST : Nat := 0x0B90

def GL_FRONT : Nat := 0x0404

def GL_BACK : Nat := 0x0405

def GL_SCISSOR_TEST : Nat := 0x0C11

def GL_BLEND : Nat := 0x0BE2

def GL_RENDERBUFFER : Nat := 0x8D41

/-- The draw substructure of OpenGLState: framebuffer and program bindings. -/
structure DrawState where
  read_framebuffer : Handle
  draw_framebuffer : Handle
  shader_program : Handle
  program_pipeline : Handle
deriving DecidableEq

/-- Per-render-target color write mask (four GLboolean channels). -/
structure ColorMask where
  red_enabled : Bool
  green_enabled : Bool
  blue_enabled : Bool
  alpha_enabled : Bool
deriving DecidableEq

/-- Scissor record embedded in each viewport slot. -/
structure Scissor where
  enabled : Bool
  x : Int
  y : Int
  width : Int
  height : Int
deriving DecidableEq

/-- Per-viewport-slot record: rectangle, depth range and scissor. -/
structure Viewport where
  x : Int
  y : Int
  width : Int
  height : Int
  depth_range_near : Int
  depth_range_far : Int
  scissor : Scissor
deriving DecidableEq

/-- Per-face stencil configuration. -/
structure StencilFaceState where
  test_func : Nat
  test_ref : Int
  test_mask : Nat
  action_stencil_fail : Nat
  action_depth_fail : Nat
  action_depth_pass : Nat
  write_mask : Nat
deriving DecidableEq

/-- Stencil test state: enable plus the two faces. -/
structure StencilState where
  test_enabled : Bool
  front : StencilFaceState
  back : StencilFaceState
deriving DecidableEq

/-- Per-target blend record. -/
structure Blend where
  enabled : Bool
  rgb_equation : Nat
  a_equation : Nat
  src_rgb_func : Nat
  dst_rgb_func : Nat
  src_a_func : Nat
  dst_a_func : Nat
deriving DecidableEq

/-- Independent-per-target blending flag. -/
structure IndependantBlend where
  enabled : Bool
deriving DecidableEq

/-- Fragment color clamp enable. -/
structure FragmentColorClamp where
  enabled : Bool
deriving DecidableEq

/-- Multisample alpha controls. -/
structure MultisampleControl where
  alpha_to_coverage : Bool
  alpha_to_one : Bool
deriving DecidableEq

/-- Clip-space convention (origin and depth mode enumerants). -/
structure ClipControl where
  origin : Nat
  depth_mode : Nat
deriving DecidableEq

/-- The full pipeline state value (OpenGLState in gl_state.h usage).  The
fixed-size arrays of the source are modelled as lists; theorems that need
the fixed-size invariant carry equal-length hypotheses. -/
structure OpenGLState where
  fragment_color_clamp : FragmentColorClamp
  multisample_control : MultisampleControl
  rasterizer_discard : Bool
  color_mask : List ColorMask
  stencil : StencilState
  viewports : List Viewport
  clip_distance : List Bool
  blend : List Blend
  independant_blend : IndependantBlend
  draw : DrawState
  clip_control : ClipControl
  renderbuffer : Handle
  textures : List Handle
  samplers : List Handle
  images : List Handle
deriving DecidableEq

/-- Reified driver (GL) calls that Apply can issue. -/
inductive GLCall where
  | bindFramebuffer (target : Nat) (handle : Handle)
  | useProgram (handle : Handle)
  | bindProgramPipeline (handle : Handle)
  | enable (cap : Nat) (flag : Bool)
  | enableIndexed (cap : Nat) (index : Nat) (flag : Bool)
  | clampColor (flag : Bool)
  | colorMaski (index : Nat) (r g b a : Bool)
  | viewportIndexed (index : Nat) (x y w h : Int)
  | depthRangeIndexed (index : Nat) (near far : Int)
  | scissorIndexed (index : Nat) (x y w h : Int)
  | stencilFuncSeparate (face : Nat) (func : Nat) (ref : Int) (mask : Nat)
  | stencilOpSeparate (face : Nat) (sfail dfail dpass : Nat)
  | stencilMaskSeparate (face : Nat) (mask : Nat)
  | blendFuncSeparate (srcRgb dstRgb srcA dstA : Nat)
  | blendEquationSeparate (rgb a : Nat)
  | blendFuncSeparatei (target : Nat) (srcRgb dstRgb srcA dstA : Nat)
  | blendEquationSeparatei (target : Nat) (rgb a : Nat)
  | clipControl (origin depthMode : Nat)
  | bindRenderbuffer (target : Nat) (handle : Handle)
  | bindTextureUnit (unit : Nat) (texture : Handle)
  | bindSampler (unit : Nat) (sampler : Handle)
  | bindImageTextures (first : Nat) (count : Nat) (textures : List Handle)
deriving DecidableEq

/-- UpdateValue of gl_state.cpp: write the new value into the cached slot
unconditionally and report whether it changed. -/
def UpdateValue {α : Type} [DecidableEq α] (current_value new_value : α) : α × Bool :=
  (new_value, decide (current_value ≠ new_value))

/-- Enable with a cached reference (gl_state.cpp Enable overload): update the
cached flag and issue glEnable or glDisable only on change. -/
def EnableUpdate (cap : Nat) (current_value new_value : Bool) : Bool × List GLCall :=
  let u := UpdateValue current_value new_value
  (u.1, if u.2 then [GLCall.enable cap new_value] else [])

/-- Indexed Enable with a cached reference (gl_state.cpp Enable overload):
update the cached flag and issue glEnablei or glDisablei only on change. -/
def EnableUpdateIndexed (cap : Nat) (index : Nat) (current_value new_value : Bool) :
    Bool × List GLCall :=
  let u := UpdateValue current_value new_value
  (u.1, if u.2 then [GLCall.enableIndexed cap index new_value] else [])

/-- ApplyFramebufferState: diff the two framebuffer handles. -/
def ApplyFramebufferState (d cur : DrawState) : DrawState × List GLCall :=
  let r := UpdateValue cur.read_framebuffer d.read_framebuffer
  let rCalls := if r.2 then [GLCall.bindFramebuffer GL_READ_FRAMEBUFFER d.read_framebuffer] else []
  let w := UpdateValue cur.draw_framebuffer d.draw_framebuffer
  let wCalls := if w.2 then [GLCall.bindFramebuffer GL_DRAW_FRAMEBUFFER d.draw_framebuffer] else []
  ({ cur with read_framebuffer := r.1, draw_framebuffer := w.1 }, rCalls ++ wCalls)

/-- ApplyShaderProgram: diff the shader program handle. -/
def ApplyShaderProgram (d cur : DrawState) : DrawState × List GLCall :=
  let u := UpdateValue cur.shader_program d.shader_program
  ({ cur with shader_program := u.1 },
   if u.2 then [GLCall.useProgram d.shader_program] else [])

/-- ApplyProgramPipeline: diff the program pipeline handle. -/
def ApplyProgramPipeline (d cur : DrawState) : DrawState × List GLCall :=
  let u := UpdateValue cur.program_pipeline d.program_pipeline
  ({ cur with program_pipeline := u.1 },
   if u.2 then [GLCall.bindProgramPipeline d.program_pipeline] else [])

/-- ApplyClipDistances: loop body over the clip-distance flags, slot index
first; each slot goes through the cached Enable with cap
GL_CLIP_DISTANCE0 + i. -/
def ApplyClipDistancesGo : Nat → List Bool → List Bool → List Bool × List GLCall
  | _, [], cur => (cur, [])
  | _, _ :: _, [] => ([], [])
  | i, dh :: dt, ch :: ct =>
    let en := EnableUpdate (GL_CLIP_DISTANCE0 + i) ch dh
    let rest := ApplyClipDistancesGo (i + 1) dt ct
    (en.1 :: rest.1, en.2 ++ rest.2)

/-- ApplyFragmentColorClamp: diff the clamp enable and issue glClampColor. -/
def ApplyFragmentColorClamp (d cur : FragmentColorClamp) :
    FragmentColorClamp × List GLCall :=
  let u := UpdateValue cur.enabled d.enabled
  (⟨u.1⟩, if u.2 then [GLCall.clampColor d.enabled] else [])

/-- ApplyMultisample: the two alpha controls through the cached Enable. -/
def ApplyMultisample (d cur : MultisampleControl) : MultisampleControl × List GLCall :=
  let c := EnableUpdate GL_SAMPLE_ALPHA_TO_COVERAGE cur.alpha_to_coverage d.alpha_to_coverage
  let o := EnableUpdate GL_SAMPLE_ALPHA_TO_ONE cur.alpha_to_one d.alpha_to_one
  (⟨c.1, o.1⟩, c.2 ++ o.2)

/-- ApplyRasterizerDiscard through the cached Enable. -/
def ApplyRasterizerDiscard (d cur : Bool) : Bool × List GLCall :=
  EnableUpdate GL_RASTERIZER_DISCARD cur d

/-- ApplyColorMask loop body: compare the four channels as a tuple; any
difference stores the updated record and issues one glColorMaski. -/
def ApplyColorMaskGo : Nat → List ColorMask → List ColorMask → List ColorMask × List GLCall
  | _, [], cur => (cur, [])
  | _, _ :: _, [] => ([], [])
  | i, u :: dt, c :: ct =>
    let rest := ApplyColorMaskGo (i + 1) dt ct
    if u.red_enabled ≠ c.red_enabled ∨ u.green_enabled ≠ c.green_enabled ∨
        u.blue_enabled ≠ c.blue_enabled ∨ u.alpha_enabled ≠ c.alpha_enabled then
      (u :: rest.1,
       GLCall.colorMaski i u.red_enabled u.green_enabled u.blue_enabled u.alpha_enabled :: rest.2)
    else
      (c :: rest.1, rest.2)

/-- ApplyStencilTest ConfigStencil lambda: three diffed groups per face. -/
def ConfigStencil (face : Nat) (config current : StencilFaceState) :
    StencilFaceState × List GLCall :=
  let funcChanged := current.test_func ≠ config.test_func ∨
    current.test_ref ≠ config.test_ref ∨ current.test_mask ≠ config.test_mask
  let cur1 := if funcChanged then
      { current with test_func := config.test_func, test_ref := config.test_ref,
                     test_mask := config.test_mask }
    else current
  let funcCalls := if funcChanged then
      [GLCall.stencilFuncSeparate face config.test_func config.test_ref config.test_mask]
    else []
  let opChanged := cur1.action_depth_fail ≠ config.action_depth_fail ∨
    cur1.action_depth_pass ≠ config.action_depth_pass ∨
    cur1.action_stencil_fail ≠ config.action_stencil_fail
  let cur2 := if opChanged then
      { cur1 with action_depth_fail := config.action_depth_fail,
                  action_depth_pass := config.action_depth_pass,
                  action_stencil_fail := config.action_stencil_fail }
    else cur1
  let opCalls := if opChanged then
      [GLCall.stencilOpSeparate face config.action_stencil_fail config.action_depth_fail
        config.action_depth_pass]
    else []
  let maskChanged := cur2.write_mask ≠ config.write_mask
  let cur3 := if maskChanged then { cur2 with write_mask := config.write_mask } else cur2
  let maskCalls := if maskChanged then [GLCall.stencilMaskSeparate face config.write_mask] else []
  (cur3, funcCalls ++ opCalls ++ maskCalls)

/-- ApplyStencilTest: the enable flag, then the two faces. -/
def ApplyStencilTest (d cur : StencilState) : StencilState × List GLCall :=
  let en := EnableUpdate GL_STENCIL_TEST cur.test_enabled d.test_enabled
  let f := ConfigStencil GL_FRONT d.front cur.front
  let b := ConfigStencil GL_BACK d.back cur.back
  (⟨en.1, f.1, b.1⟩, en.2 ++ f.2 ++ b.2)

/-- ApplyViewport loop body for one slot: rectangle group, depth-range group,
indexed scissor enable, scissor rectangle group, in source order. -/
def ApplyViewportSlot (i : Nat) (updated current : Viewport) : Viewport × List GLCall :=
  let rectChanged := current.x ≠ updated.x ∨ current.y ≠ updated.y ∨
    current.width ≠ updated.width ∨ current.height ≠ updated.height
  let cur1 := if rectChanged then
      { current with x := updated.x, y := updated.y, width := updated.width,
                     height := updated.height }
    else current
  let rectCalls := if rectChanged then
      [GLCall.viewportIndexed i updated.x updated.y updated.width updated.height]
    else []
  let depthChanged := cur1.depth_range_near ≠ updated.depth_range_near ∨
    cur1.depth_range_far ≠ updated.depth_range_far
  let cur2 := if depthChanged then
      { cur1 with depth_range_near := updated.depth_range_near,
                  depth_range_far := updated.depth_range_far }
    else cur1
  let depthCalls := if depthChanged then
      [GLCall.depthRangeIndexed i updated.depth_range_near updated.depth_range_far]
    else []
  let en := EnableUpdateIndexed GL_SCISSOR_TEST i cur2.scissor.enabled updated.scissor.enabled
  let cur3 := { cur2 with scissor := { cur2.scissor with enabled := en.1 } }
  let scisChanged := cur3.scissor.x ≠ updated.scissor.x ∨ cur3.scissor.y ≠ updated.scissor.y ∨
    cur3.scissor.width ≠ updated.scissor.width ∨ cur3.scissor.height ≠ updated.scissor.height
  let cur4 := if scisChanged then
      { cur3 with scissor := { cur3.scissor with x := updated.scissor.x, y := updated.scissor.y,
                                                 width := updated.scissor.width,
                                                 height := updated.scissor.height } }
    else cur3
  let scisCalls := if scisChanged then
      [GLCall.scissorIndexed i updated.scissor.x updated.scissor.y updated.scissor.width
        updated.scissor.height]
    else []
  (cur4, rectCalls ++ depthCalls ++ en.2 ++ scisCalls)

/-- ApplyViewport: the per-slot loop over all viewport slots. -/
def ApplyViewportGo : Nat → List Viewport → List Viewport → List Viewport × List GLCall
  | _, [], cur => (cur, [])
  | _, _ :: _, [] => ([], [])
  | i, u :: dt, c :: ct =>
    let one := ApplyViewportSlot i u c
    let rest := ApplyViewportGo (i + 1) dt ct
    (one.1 :: rest.1, one.2 ++ rest.2)

/-- ApplyGlobalBlending: target 0 through the non-indexed call path. -/
def ApplyGlobalBlending (updated current : Blend) : Blend × List GLCall :=
  let en := EnableUpdate GL_BLEND current.enabled updated.enabled
  let cur1 := { current with enabled := en.1 }
  let funcChanged := cur1.src_rgb_func ≠ updated.src_rgb_func ∨
    cur1.dst_rgb_func ≠ updated.dst_rgb_func ∨ cur1.src_a_func ≠ updated.src_a_func ∨
    cur1.dst_a_func ≠ updated.dst_a_func
  let cur2 := if funcChanged then
      { cur1 with src_rgb_func := updated.src_rgb_func, dst_rgb_func := updated.dst_rgb_func,
                  src_a_func := updated.src_a_func, dst_a_func := updated.dst_a_func }
    else cur1
  let funcCalls := if funcChanged then
      [GLCall.blendFuncSeparate updated.src_rgb_func updated.dst_rgb_func updated.src_a_func
        updated.dst_a_func]
    else []
  let eqChanged := cur2.rgb_equation ≠ updated.rgb_equation ∨
    cur2.a_equation ≠ updated.a_equation
  let cur3 := if eqChanged then
      { cur2 with rgb_equation := updated.rgb_equation, a_equation := updated.a_equation }
    else cur2
  let eqCalls := if eqChanged then
      [GLCall.blendEquationSeparate updated.rgb_equation updated.a_equation]
    else []
  (cur3, en.2 ++ funcCalls ++ eqCalls)

/-- ApplyTargetBlending: one target through the indexed call path; force
re-issues the indexed enable call even without a diff.  The two UpdateTie
groups write the cached fields unconditionally and call only on change. -/
def ApplyTargetBlending (target : Nat) (force : Bool) (updated current : Blend) :
    Blend × List GLCall :=
  let enChanged := current.enabled ≠ updated.enabled ∨ force = true
  let cur1 := if enChanged then { current with enabled := updated.enabled } else current
  let enCalls := if enChanged then [GLCall.enableIndexed GL_BLEND target updated.enabled] else []
  let funcChanged := cur1.src_rgb_func ≠ updated.src_rgb_func ∨
    cur1.dst_rgb_func ≠ updated.dst_rgb_func ∨ cur1.src_a_func ≠ updated.src_a_func ∨
    cur1.dst_a_func ≠ updated.dst_a_func
  let cur2 := { cur1 with src_rgb_func := updated.src_rgb_func,
                          dst_rgb_func := updated.dst_rgb_func,
                          src_a_func := updated.src_a_func, dst_a_func := updated.dst_a_func }
  let funcCalls := if funcChanged then
      [GLCall.blendFuncSeparatei target updated.src_rgb_func updated.dst_rgb_func
        updated.src_a_func updated.dst_a_func]
    else []
  let eqChanged := cur2.rgb_equation ≠ updated.rgb_equation ∨
    cur2.a_equation ≠ updated.a_equation
  let cur3 := { cur2 with rgb_equation := updated.rgb_equation,
                          a_equation := updated.a_equation }
  let eqCalls := if eqChanged then
      [GLCall.blendEquationSeparatei target updated.rgb_equation updated.a_equation]
    else []
  (cur3, enCalls ++ funcCalls ++ eqCalls)

/-- ApplyBlending loop over all render targets in the independent path. -/
def ApplyAllTargetBlending (force : Bool) :
    Nat → List Blend → List Blend → List Blend × List GLCall
  | _, [], cur => (cur, [])
  | _, _ :: _, [] => ([], [])
  | t, u :: dt, c :: ct =>
    let one := ApplyTargetBlending t force u c
    let rest := ApplyAllTargetBlending force (t + 1) dt ct
    (one.1 :: rest.1, one.2 ++ rest.2)

/-- ApplyBlending: choose the indexed per-target path (forcing on a flag
transition) or the global path, then store the flag unconditionally.
Returns the new independant_blend flag and blend list plus the calls. -/
def ApplyBlending (d cur : OpenGLState) : (IndependantBlend × List Blend) × List GLCall :=
  if d.independant_blend.enabled then
    let force := decide (d.independant_blend.enabled ≠ cur.independant_blend.enabled)
    let r := ApplyAllTargetBlending force 0 d.blend cur.blend
    ((d.independant_blend, r.1), r.2)
  else
    match d.blend, cur.blend with
    | u :: _, c :: ct =>
      let g := ApplyGlobalBlending u c
      ((d.independant_blend, g.1 :: ct), g.2)
    | _, _ => ((d.independant_blend, cur.blend), [])

/-- ApplyClipControl: the UpdateTie on origin and depth mode. -/
def ApplyClipControl (d cur : ClipControl) : ClipControl × List GLCall :=
  let changed := cur.origin ≠ d.origin ∨ cur.depth_mode ≠ d.depth_mode
  (⟨d.origin, d.depth_mode⟩,
   if changed then [GLCall.clipControl d.origin d.depth_mode] else [])

/-- ApplyRenderBuffer: plain compare, store and bind on change. -/
def ApplyRenderBuffer (d cur : Handle) : Handle × List GLCall :=
  if cur ≠ d then (d, [GLCall.bindRenderbuffer GL_RENDERBUFFER d]) else (cur, [])

/-- ApplyTextures loop body: per-slot UpdateValue; a changed slot binds only
when the new value is nonzero (BindTextureUnit cannot bind null textures),
but the cached value is updated regardless. -/
def ApplyTexturesGo : Nat → List Handle → List Handle → List Handle × List GLCall
  | _, [], cur => (cur, [])
  | _, _ :: _, [] => ([], [])
  | i, dh :: dt, ch :: ct =>
    let u := UpdateValue ch dh
    let rest := ApplyTexturesGo (i + 1) dt ct
    let calls := if u.2 then (if dh ≠ 0 then [GLCall.bindTextureUnit i dh] else []) else []
    (u.1 :: rest.1, calls ++ rest.2)

/-- ApplySamplers loop body: per-slot UpdateValue and glBindSampler. -/
def ApplySamplersGo : Nat → List Handle → List Handle → List Handle × List GLCall
  | _, [], cur => (cur, [])
  | _, _ :: _, [] => ([], [])
  | i, dh :: dt, ch :: ct =>
    let u := UpdateValue ch dh
    let rest := ApplySamplersGo (i + 1) dt ct
    let calls := if u.2 then [GLCall.bindSampler i dh] else []
    (u.1 :: rest.1, calls ++ rest.2)

/-- UpdateArray loop of gl_state.cpp: write every slot, tracking the first
and last differing indices.  Returns the updated array and, when any slot
differed, the pair (first, last). -/
def UpdateArrayGo : Nat → List Handle → List Handle → List Handle × Option (Nat × Nat)
  | _, [], _ => ([], none)
  | _, _ :: _, [] => ([], none)
  | i, c :: ct, n :: nt =>
    let u := UpdateValue c n
    let rest := UpdateArrayGo (i + 1) ct nt
    let r := if u.2 then
        some (i, match rest.2 with
          | none => i
          | some p => p.2)
      else rest.2
    (u.1 :: rest.1, r)

/-- UpdateArray: the scan plus the conversion of (first, last) into the
(first, count) pair handed to the batched bind. -/
def UpdateArray (current_values new_values : List Handle) :
    List Handle × Option (Nat × Nat) :=
  let r := UpdateArrayGo 0 current_values new_values
  (r.1, r.2.map (fun p => (p.1, p.2 - p.1 + 1)))

/-- ApplyImages: one batched glBindImageTextures over the differing range,
carrying the desired array's values starting at the first differing slot. -/
def ApplyImages (d cur : List Handle) : List Handle × List GLCall :=
  let r := UpdateArray cur d
  match r.2 with
  | some p => (r.1, [GLCall.bindImageTextures p.1 p.2 ((d.drop p.1).take p.2)])
  | none => (r.1, [])

/-- Apply: the full diff in the fixed source order, threading the applied
state and concatenating the issued calls. -/
def OpenGLState.Apply (s cur : OpenGLState) : OpenGLState × List GLCall :=
  let fb := ApplyFramebufferState s.draw cur.draw
  let sp := ApplyShaderProgram s.draw fb.1
  let pp := ApplyProgramPipeline s.draw sp.1
  let cd := ApplyClipDistancesGo 0 s.clip_distance cur.clip_distance
  let fc := ApplyFragmentColorClamp s.fragment_color_clamp cur.fragment_color_clamp
  let ms := ApplyMultisample s.multisample_control cur.multisample_control
  let rd := ApplyRasterizerDiscard s.rasterizer_discard cur.rasterizer_discard
  let cm := ApplyColorMaskGo 0 s.color_mask cur.color_mask
  let vp := ApplyViewportGo 0 s.viewports cur.viewports
  let st := ApplyStencilTest s.stencil cur.stencil
  let bl := ApplyBlending s cur
  let tx := ApplyTexturesGo 0 s.textures cur.textures
  let sm := ApplySamplersGo 0 s.samplers cur.samplers
  let im := ApplyImages s.images cur.images
  let cc := ApplyClipControl s.clip_control cur.clip_control
  let rb := ApplyRenderBuffer s.renderbuffer cur.renderbuffer
  ({ fragment_color_clamp := fc.1, multisample_control := ms.1, rasterizer_discard := rd.1,
     color_mask := cm.1, stencil := st.1, viewports := vp.1, clip_distance := cd.1,
     blend := bl.1.2, independant_blend := bl.1.1, draw := pp.1, clip_control := cc.1,
     renderbuffer := rb.1, textures := tx.1, samplers := sm.1, images := im.1 },
   fb.2 ++ sp.2 ++ pp.2 ++ cd.2 ++ fc.2 ++ ms.2 ++ rd.2 ++ cm.2 ++ vp.2 ++ st.2 ++ bl.2 ++
     tx.2 ++ sm.2 ++ im.2 ++ cc.2 ++ rb.2)

/-- Shape of the blend list left by the global (non-independent) path: the
head is overwritten with the desired target-0 record, the tail keeps the
previously applied records. -/
def blendAfterGlobal (d c : List Blend) : List Blend :=
  match d, c with
  | u :: _, _ :: ct => u :: ct
  | _, _ => c

/-- EmulateViewportWithScissor body on viewport slot 0. -/
def Viewport.emulateWithScissor (current : Viewport) : Viewport :=
  if current.scissor.enabled then
    let left := max current.x current.scissor.x
    let right := max (current.x + current.width) (current.scissor.x + current.scissor.width)
    let bottom := max current.y current.scissor.y
    let top := max (current.y + current.height) (current.scissor.y + current.scissor.height)
    { current with scissor := { current.scissor with
        x := max left 0, y := max bottom 0,
        width := max (right - left) 0, height := max (top - bottom) 0 } }
  else
    { current with scissor := { enabled := true, x := current.x, y := current.y,
                                width := current.width, height := current.height } }

/-- EmulateViewportWithScissor on the state: mutates viewports[0]. -/
def OpenGLState.EmulateViewportWithScissor (s : OpenGLState) : OpenGLState :=
  match s.viewports with
  | [] => s
  | v :: vt => { s with viewports := Viewport.emulateWithScissor v :: vt }

/-- Scrub loop shared by UnbindTexture and ResetSampler: every slot equal to
the handle becomes the unbound sentinel. -/
def scrubHandle (handle : Handle) : List Handle → List Handle
  | [] => []
  | t :: ts => (if t = handle then 0 else t) :: scrubHandle handle ts

/-- UnbindTexture: scrub the handle from the texture units. -/
def OpenGLState.UnbindTexture (s : OpenGLState) (handle : Handle) : OpenGLState :=
  { s with textures := scrubHandle handle s.textures }

/-- ResetSampler: scrub the handle from the sampler units. -/
def OpenGLState.ResetSampler (s : OpenGLState) (handle : Handle) : OpenGLState :=
  { s with samplers := scrubHandle handle s.samplers }

/-- ResetProgram: scrub the handle from the shader program binding. -/
def OpenGLState.ResetProgram (s : OpenGLState) (handle : Handle) : OpenGLState :=
  if s.draw.shader_program = handle then
    { s with draw := { s.draw with shader_program := 0 } }
  else s

/-- ResetPipeline: scrub the handle from the program pipeline binding. -/
def OpenGLState.ResetPipeline (s : OpenGLState) (handle : Handle) : OpenGLState :=
  if s.draw.program_pipeline = handle then
    { s with draw := { s.draw with program_pipeline := 0 } }
  else s

/-- ResetFramebuffer: scrub the handle from both framebuffer bindings. -/
def OpenGLState.ResetFramebuffer (s : OpenGLState) (handle : Handle) : OpenGLState :=
  let s1 := if s.draw.read_framebuffer = handle then
      { s with draw := { s.draw with read_framebuffer := 0 } }
    else s
  if s1.draw.draw_framebuffer = handle then
    { s1 with draw := { s1.draw with draw_framebuffer := 0 } }
  else s1

/-- ResetRenderbuffer: scrub the handle from the renderbuffer binding. -/
def OpenGLState.ResetRenderbuffer (s : OpenGLState) (handle : Handle) : OpenGLState :=
  if s.renderbuffer = handle then { s with renderbuffer := 0 } else s

/-- Per-stage binding base table entry of gl_device.h. -/
structure BaseBindings where
  uniform_buffer : Nat
  shader_storage_buffer : Nat
  sampler_unit : Nat
  image_unit : Nat
deriving DecidableEq

/-- Modulus of the u32 arithmetic used by the binding-base computation. -/
def U32MOD : Nat := 4294967296

/-- Unsigned 32-bit addition. -/
def u32Add (a b : Nat) : Nat := (a + b) % U32MOD

/-- Unsigned 32-bit subtraction (two's complement wraparound). -/
def u32Sub (a b : Nat) : Nat := (a + (U32MOD - b % U32MOD)) % U32MOD

/-- ReservedUniformBlocks of gl_device.cpp: one uniform block is reserved
for emulation purposes. -/
def ReservedUniformBlocks : Nat := 1

/-- BaseBindings componentwise addition (operator+ of gl_device.cpp). -/
def BaseBindings.add (lhs rhs : BaseBindings) : BaseBindings :=
  ⟨u32Add lhs.uniform_buffer rhs.uniform_buffer,
   u32Add lhs.shader_storage_buffer rhs.shader_storage_buffer,
   u32Add lhs.sampler_unit rhs.sampler_unit,
   u32Add lhs.image_unit rhs.image_unit⟩

/-- BuildBaseBindings of gl_device.cpp: the queried per-stage limits, with
the reserved uniform block subtracted from the uniform-block limit. -/
def BuildBaseBindings (uniform_blocks shader_storage_blocks texture_image_units
    image_uniforms : Nat) : BaseBindings :=
  ⟨u32Sub uniform_blocks ReservedUniformBlocks, shader_storage_blocks, texture_image_units,
   image_uniforms⟩

/-- Driver-reported limits for one shader stage (the four GetInteger
queries that feed BuildBaseBindings). -/
structure StageLimits where
  uniform_blocks : Nat
  shader_storage_blocks : Nat
  texture_image_units : Nat
  image_uniforms : Nat
deriving DecidableEq

/-- Driver-reported limits for the four graphics stages probed by the
Device constructor. -/
structure DeviceLimits where
  vertex : StageLimits
  tess_control : StageLimits
  tess_eval : StageLimits
  geometry : StageLimits
deriving DecidableEq

/-- Stage binding-base table built by the Device constructor from the
queried limits: a reserved baseline, four cumulative graphics entries and
the independent zero table for compute. -/
def deviceBaseBindings (lim : DeviceLimits) : List BaseBindings :=
  let b0 : BaseBindings := ⟨ReservedUniformBlocks, 0, 0, 0⟩
  let b1 := b0.add (BuildBaseBindings lim.vertex.uniform_blocks lim.vertex.shader_storage_blocks
    lim.vertex.texture_image_units lim.vertex.image_uniforms)
  let b2 := b1.add (BuildBaseBindings lim.tess_control.uniform_blocks
    lim.tess_control.shader_storage_blocks lim.tess_control.texture_image_units
    lim.tess_control.image_uniforms)
  let b3 := b2.add (BuildBaseBindings lim.tess_eval.uniform_blocks
    lim.tess_eval.shader_storage_blocks lim.tess_eval.texture_image_units
    lim.tess_eval.image_uniforms)
  let b4 := b3.add (BuildBaseBindings lim.geometry.uniform_blocks
    lim.geometry.shader_storage_blocks lim.geometry.texture_image_units
    lim.geometry.image_uniforms)
  let b5 : BaseBindings := ⟨0, 0, 0, 0⟩
  [b0, b1, b2, b3, b4, b5]

/-- The eight-element known word array uploaded by TestComponentIndexingBug. -/
def componentTestValues : List Nat :=
  [0, 0, 0, 0, 0x1236327, 0x985482, 0x872753, 0x2378432]

/-- TestComponentIndexingBug comparison loop over the probed indices; the
driver-observed readbacks are abstracted as the results oracle.  The none
outcome models the out-of-range failure of the checked access values.at. -/
def TestComponentIndexingBugGo (results : Nat → Nat) : List Nat → Option Bool
  | [] => some false
  | i :: rest =>
    match componentTestValues.get? i with
    | none => none
    | some v => if results i ≠ v then some true else TestComponentIndexingBugGo results rest

/-- TestComponentIndexingBug: the loop runs over indices 4 to 7. -/
def TestComponentIndexingBug (results : Nat → Nat) : Option Bool :=
  TestComponentIndexingBugGo results (List.range' 4 4)

/-- Scissor rectangle a union-based emulation would produce, following the
specification's words (union of the viewport rectangle and the existing
scissor rectangle, clamped so no component is negative); stated only to be
compared against the source's EmulateViewportWithScissor. -/
def scissorUnionSpec (current : Viewport) : Scissor :=
  let left := min current.x current.scissor.x
  let right := max (current.x + current.width) (current.scissor.x + current.scissor.width)
  let bottom := min current.y current.scissor.y
  let top := max (current.y + current.height) (current.scissor.y + current.scissor.height)
  { current.scissor with
      x := max left 0, y := max bottom 0,
      width := max (right - left) 0, height := max (top - bottom) 0 }

/-- Blend record with blending disabled and zero enumerants, used by the
concrete witness states. -/
def exBlendOff : Blend := ⟨false, 0, 0, 0, 0, 0, 0⟩

/-- Blend record with blending enabled, used by the concrete witness states. -/
def exBlendOn : Blend := ⟨true, 0, 0, 0, 0, 0, 0⟩

/-- Stencil face with zero enumerants, used by the concrete witness states. -/
def exFace : StencilFaceState := ⟨0, 0, 0, 0, 0, 0, 0⟩

/-- Stencil state with zero enumerants, used by the concrete witness states. -/
def exStencil : StencilState := ⟨false, exFace, exFace⟩

/-- Minimal concrete OpenGLState value used by witnesses and counterexamples. -/
def baseState : OpenGLState :=
  ⟨⟨false⟩, ⟨false, false⟩, false, [], exStencil, [], [], [], ⟨false⟩, ⟨0, 0, 0, 0⟩, ⟨0, 0⟩, 0,
   [], [], []⟩

/-- Realistic bounds on one stage's driver-reported limits: the uniform
block limit is at least the one reserved block and every limit is small
enough that the u32 binding-base sums cannot wrap. -/
def StageLimits.Small (t : StageLimits) : Prop :=
  1 ≤ t.uniform_blocks ∧ t.uniform_blocks ≤ 65536 ∧ t.shader_storage_blocks ≤ 65536 ∧
    t.texture_image_units ≤ 65536 ∧ t.image_uniforms ≤ 65536

/-- Realistic bounds on all four probed graphics stages. -/
def DeviceLimits.Small (lim : DeviceLimits) : Prop :=
  lim.vertex.Small ∧ lim.tess_control.Small ∧ lim.tess_eval.Small ∧ lim.geometry.Small

/-- Classification of the blending calls by the render target they touch:
the indexed blend enable, blend function and blend equation calls for
target t.  Used to state which targets contribute calls during
ApplyBlending. -/
def IsBlendCallFor (t : Nat) (x : GLCall) : Prop :=
  match x with
  | GLCall.enableIndexed cap i _ => cap = GL_BLEND ∧ i = t
  | GLCall.blendFuncSeparatei i _ _ _ _ => i = t
  | GLCall.blendEquationSeparatei i _ _ => i = t
  | _ => False

/-! Generic facts about the cached update helpers. -/

theorem UpdateValue_fst {α : Type} [DecidableEq α] (c n : α) : (UpdateValue c n).1 = n := rfl

theorem UpdateValue_snd_self {α : Type} [DecidableEq α] (a : α) :
    (UpdateValue a a).2 = false := by
  simp [UpdateValue]

theorem EnableUpdate_fst (cap : Nat) (c n : Bool) : (EnableUpdate cap c n).1 = n := rfl

theorem EnableUpdate_self (cap : Nat) (a : Bool) : (EnableUpdate cap a a).2 = [] := by
  simp [EnableUpdate, UpdateValue]

theorem EnableUpdateIndexed_fst (cap i : Nat) (c n : Bool) :
    (EnableUpdateIndexed cap i c n).1 = n := rfl

theorem EnableUpdateIndexed_self (cap i : Nat) (a : Bool) :
    (EnableUpdateIndexed cap i a a).2 = [] := by
  simp [EnableUpdateIndexed, UpdateValue]

/-! Convergence of each per-category routine: the applied value it stores
equals the desired value (for the list-shaped categories, under the
fixed-size equal-length invariant of the source arrays). -/

theorem applyDrawChain_fst (d c : DrawState) :
    (ApplyProgramPipeline d (ApplyShaderProgram d (ApplyFramebufferState d c).1).1).1 = d := rfl

theorem applyFragmentColorClamp_fst (d c : FragmentColorClamp) :
    (ApplyFragmentColorClamp d c).1 = d := rfl

theorem applyMultisample_fst (d c : MultisampleControl) : (ApplyMultisample d c).1 = d := rfl

theorem applyRasterizerDiscard_fst (d c : Bool) : (ApplyRasterizerDiscard d c).1 = d := rfl

theorem applyClipControl_fst (d c : ClipControl) : (ApplyClipControl d c).1 = d := rfl

theorem applyRenderBuffer_fst (d c : Handle) : (ApplyRenderBuffer d c).1 = d := by
  unfold ApplyRenderBuffer
  split_ifs with h
  · rfl
  · exact not_not.mp h

theorem applyClipDistancesGo_fst (i : Nat) (d c : List Bool) (h : d.length = c.length) :
    (ApplyClipDistancesGo i d c).1 = d := by
  induction d generalizing i c with
  | nil =>
    cases c with
    | nil => rfl
    | cons ch ct => simp at h
  | cons dh dt ih =>
    cases c with
    | nil => simp at h
    | cons ch ct =>
      simp only [List.length_cons, Nat.add_right_cancel_iff] at h
      simp [ApplyClipDistancesGo, EnableUpdate, UpdateValue, ih _ _ h]

theorem applyColorMaskGo_fst (i : Nat) (d c : List ColorMask) (h : d.length = c.length) :
    (ApplyColorMaskGo i d c).1 = d := by
  induction d generalizing i c with
  | nil =>
    cases c with
    | nil => rfl
    | cons ch ct => simp at h
  | cons dh dt ih =>
    cases c with
    | nil => simp at h
    | cons ch ct =>
      simp only [List.length_cons, Nat.add_right_cancel_iff] at h
      unfold ApplyColorMaskGo
      split_ifs with hch
      · simp [ih _ _ h]
      · push_neg at hch
        obtain ⟨h1, h2, h3, h4⟩ := hch
        have : ch = dh := by
          cases ch; cases dh; simp_all
        simp [ih _ _ h, this]

theorem configStencil_fst (face : Nat) (d c : StencilFaceState) :
    (ConfigStencil face d c).1 = d := by
  unfold ConfigStencil
  dsimp only
  split_ifs with h1 h2 h3 h4 h5 h6 h7 <;>
    (push_neg at * ; cases d ; cases c ; simp_all)

theorem applyStencilTest_fst (d c : StencilState) : (ApplyStencilTest d c).1 = d := by
  unfold ApplyStencilTest
  simp [configStencil_fst, EnableUpdate_fst]

theorem applyViewportSlot_fst (i : Nat) (u c : Viewport) : (ApplyViewportSlot i u c).1 = u := by
  unfold ApplyViewportSlot
  simp only [EnableUpdateIndexed, UpdateValue]
  split_ifs with h1 h2 h3 h4 h5 h6 h7 <;>
    (push_neg at * ; obtain ⟨ux, uy, uw, uh, un, uf, ⟨ue, usx, usy, usw, ush⟩⟩ := u ;
     obtain ⟨cx, cy, cw, ch, cn, cf, ⟨ce, csx, csy, csw, csh⟩⟩ := c ; simp_all)

theorem applyViewportGo_fst (i : Nat) (d c : List Viewport) (h : d.length = c.length) :
    (ApplyViewportGo i d c).1 = d := by
  induction d generalizing i c with
  | nil =>
    cases c with
    | nil => rfl
    | cons ch ct => simp at h
  | cons dh dt ih =>
    cases c with
    | nil => simp at h
    | cons ch ct =>
      simp only [List.length_cons, Nat.add_right_cancel_iff] at h
      simp [ApplyViewportGo, applyViewportSlot_fst, ih _ _ h]

theorem applyGlobalBlending_fst (u c : Blend) : (ApplyGlobalBlending u c).1 = u := by
  unfold ApplyGlobalBlending
  simp only [EnableUpdate, UpdateValue]
  split_ifs with h1 h2 h3 h4 <;>
    (push_neg at * ; cases u ; cases c ; simp_all)

theorem applyTargetBlending_fst (t : Nat) (f : Bool) (u c : Blend) :
    (ApplyTargetBlending t f u c).1 = u := by
  unfold ApplyTargetBlending
  dsimp only
  split_ifs with h1 h2 h3 h4 h5 <;>
    (push_neg at * ; cases u ; cases c ; simp_all)

theorem applyAllTargetBlending_fst (f : Bool) (t : Nat) (d c : List Blend)
    (h : d.length = c.length) : (ApplyAllTargetBlending f t d c).1 = d := by
  induction d generalizing t c with
  | nil =>
    cases c with
    | nil => rfl
    | cons ch ct => simp at h
  | cons dh dt ih =>
    cases c with
    | nil => simp at h
    | cons ch ct =>
      simp only [List.length_cons, Nat.add_right_cancel_iff] at h
      simp [ApplyAllTargetBlending, applyTargetBlending_fst, ih _ _ h]

theorem applyTexturesGo_fst (i : Nat) (d c : List Handle) (h : d.length = c.length) :
    (ApplyTexturesGo i d c).1 = d := by
  induction d generalizing i c with
  | nil =>
    cases c with
    | nil => rfl
    | cons ch ct => simp at h
  | cons dh dt ih =>
    cases c with
    | nil => simp at h
    | cons ch ct =>
      simp only [List.length_cons, Nat.add_right_cancel_iff] at h
      simp [ApplyTexturesGo, UpdateValue, ih _ _ h]

theorem applySamplersGo_fst (i : Nat) (d c : List Handle) (h : d.length = c.length) :
    (ApplySamplersGo i d c).1 = d := by
  induction d generalizing i c with
  | nil =>
    cases c with
    | nil => rfl
    | cons ch ct => simp at h
  | cons dh dt ih =>
    cases c with
    | nil => simp at h
    | cons ch ct =>
      simp only [List.length_cons, Nat.add_right_cancel_iff] at h
      simp [ApplySamplersGo, UpdateValue, ih _ _ h]

theorem updateArrayGo_fst (i : Nat) (c n : List Handle) (h : c.length = n.length) :
    (UpdateArrayGo i c n).1 = n := by
  induction c generalizing i n with
  | nil =>
    cases n with
    | nil => rfl
    | cons nh nt => simp at h
  | cons ch ct ih =>
    cases n with
    | nil => simp at h
    | cons nh nt =>
      simp only [List.length_cons, Nat.add_right_cancel_iff] at h
      simp [UpdateArrayGo, UpdateValue, ih _ _ h]

theorem applyImages_fst (d c : List Handle) (h : d.length = c.length) :
    (ApplyImages d c).1 = d := by
  have hgo := updateArrayGo_fst 0 c d h.symm
  unfold ApplyImages UpdateArray
  dsimp only
  rcases hr : (UpdateArrayGo 0 c d).2 with _ | p
  · simp [hr, hgo]
  · simp [hr, hgo]

/-! Silence of each per-category routine when the applied value already
equals the desired value: no driver call is issued. -/

theorem applyFramebufferState_self (d : DrawState) : (ApplyFramebufferState d d).2 = [] := by
  simp [ApplyFramebufferState, UpdateValue]

theorem applyShaderProgram_self (d : DrawState) : (ApplyShaderProgram d d).2 = [] := by
  simp [ApplyShaderProgram, UpdateValue]

theorem applyProgramPipeline_self (d : DrawState) : (ApplyProgramPipeline d d).2 = [] := by
  simp [ApplyProgramPipeline, UpdateValue]

theorem applyFramebufferState_fst_self (d : DrawState) : (ApplyFramebufferState d d).1 = d := rfl

theorem applyShaderProgram_fst_self (d : DrawState) : (ApplyShaderProgram d d).1 = d := rfl

theorem applyClipDistancesGo_self (i : Nat) (d : List Bool) :
    (ApplyClipDistancesGo i d d).2 = [] := by
  induction d generalizing i with
  | nil => rfl
  | cons dh dt ih => simp [ApplyClipDistancesGo, EnableUpdate_self, ih]

theorem applyFragmentColorClamp_self (d : FragmentColorClamp) :
    (ApplyFragmentColorClamp d d).2 = [] := by
  simp [ApplyFragmentColorClamp, UpdateValue]

theorem applyMultisample_self (d : MultisampleControl) : (ApplyMultisample d d).2 = [] := by
  simp [ApplyMultisample, EnableUpdate_self]

theorem applyRasterizerDiscard_self (d : Bool) : (ApplyRasterizerDiscard d d).2 = [] := by
  simp [ApplyRasterizerDiscard, EnableUpdate_self]

theorem applyColorMaskGo_self (i : Nat) (d : List ColorMask) :
    (ApplyColorMaskGo i d d).2 = [] := by
  induction d generalizing i with
  | nil => rfl
  | cons dh dt ih =>
    unfold ApplyColorMaskGo
    split_ifs with h
    · simp at h
    · simp [ih]

theorem configStencil_self (face : Nat) (d : StencilFaceState) :
    (ConfigStencil face d d).2 = [] := by
  unfold ConfigStencil
  dsimp only
  split_ifs with h1 h2 h3 <;> simp_all

theorem applyStencilTest_self (d : StencilState) : (ApplyStencilTest d d).2 = [] := by
  simp [ApplyStencilTest, EnableUpdate_self, configStencil_self]

theorem applyViewportSlot_self (i : Nat) (u : Viewport) : (ApplyViewportSlot i u u).2 = [] := by
  unfold ApplyViewportSlot
  simp only [EnableUpdateIndexed, UpdateValue]
  split_ifs with h1 h2 h3 h4 <;> simp_all

theorem applyViewportGo_self (i : Nat) (d : List Viewport) : (ApplyViewportGo i d d).2 = [] := by
  induction d generalizing i with
  | nil => rfl
  | cons dh dt ih => simp [ApplyViewportGo, applyViewportSlot_self, ih]

theorem applyGlobalBlending_self (u : Blend) : (ApplyGlobalBlending u u).2 = [] := by
  unfold ApplyGlobalBlending
  simp only [EnableUpdate, UpdateValue]
  split_ifs with h1 h2 h3 <;> simp_all

theorem applyTargetBlending_self (t : Nat) (u : Blend) :
    (ApplyTargetBlending t false u u).2 = [] := by
  unfold ApplyTargetBlending
  dsimp only
  split_ifs with h1 h2 h3 <;> simp_all

theorem applyAllTargetBlending_self (t : Nat) (d : List Blend) :
    (ApplyAllTargetBlending false t d d).2 = [] := by
  induction d generalizing t with
  | nil => rfl
  | cons dh dt ih => simp [ApplyAllTargetBlending, applyTargetBlending_self, ih]

theorem applyTexturesGo_self (i : Nat) (d : List Handle) : (ApplyTexturesGo i d d).2 = [] := by
  induction d generalizing i with
  | nil => rfl
  | cons dh dt ih => simp [ApplyTexturesGo, UpdateValue, ih]

theorem applySamplersGo_self (i : Nat) (d : List Handle) : (ApplySamplersGo i d d).2 = [] := by
  induction d generalizing i with
  | nil => rfl
  | cons dh dt ih => simp [ApplySamplersGo, UpdateValue, ih]

theorem updateArrayGo_self (i : Nat) (d : List Handle) : (UpdateArrayGo i d d).2 = none := by
  induction d generalizing i with
  | nil => rfl
  | cons dh dt ih => simp [UpdateArrayGo, UpdateValue, ih]

theorem applyImages_self (d : List Handle) : (ApplyImages d d).2 = [] := by
  unfold ApplyImages UpdateArray
  dsimp only
  rw [updateArrayGo_self]
  rfl

theorem applyClipControl_self (d : ClipControl) : (ApplyClipControl d d).2 = [] := by
  simp [ApplyClipControl]

theorem applyRenderBuffer_self (d : Handle) : (ApplyRenderBuffer d d).2 = [] := by
  simp [ApplyRenderBuffer]

/-! Characterization of the full Apply: which applied state it leaves. -/

theorem applyBlending_fst (d c : OpenGLState) (hbl : d.blend.length = c.blend.length) :
    (ApplyBlending d c).1 = (d.independant_blend,
      if d.independant_blend.enabled = true then d.blend
      else blendAfterGlobal d.blend c.blend) := by
  unfold ApplyBlending
  split_ifs with h
  · simp [applyAllTargetBlending_fst _ _ _ _ hbl]
  · cases hd : d.blend with
    | nil =>
      cases hc : c.blend with
      | nil => simp [blendAfterGlobal, hc]
      | cons ch ct => rw [hd, hc] at hbl; simp at hbl
    | cons u ds =>
      cases hc : c.blend with
      | nil => rw [hd, hc] at hbl; simp at hbl
      | cons ch ct => simp [blendAfterGlobal, hd, hc, applyGlobalBlending_fst]

theorem apply_fst_char (d c : OpenGLState)
    (hcm : d.color_mask.length = c.color_mask.length)
    (hvp : d.viewports.length = c.viewports.length)
    (hcd : d.clip_distance.length = c.clip_distance.length)
    (hbl : d.blend.length = c.blend.length)
    (htx : d.textures.length = c.textures.length)
    (hsm : d.samplers.length = c.samplers.length)
    (him : d.images.length = c.images.length) :
    (OpenGLState.Apply d c).1 =
      { d with blend := if d.independant_blend.enabled = true then d.blend
               else blendAfterGlobal d.blend c.blend } := by
  unfold OpenGLState.Apply
  dsimp only
  rw [applyDrawChain_fst, applyClipDistancesGo_fst _ _ _ hcd, applyFragmentColorClamp_fst,
    applyMultisample_fst, applyRasterizerDiscard_fst, applyColorMaskGo_fst _ _ _ hcm,
    applyViewportGo_fst _ _ _ hvp, applyStencilTest_fst, applyBlending_fst d c hbl,
    applyTexturesGo_fst _ _ _ htx, applySamplersGo_fst _ _ _ hsm, applyImages_fst _ _ him,
    applyClipControl_fst, applyRenderBuffer_fst]

theorem applyBlending_second (d c : OpenGLState) (hbl : d.blend.length = c.blend.length) :
    (ApplyBlending d { d with blend := (if d.independant_blend.enabled = true then d.blend
        else blendAfterGlobal d.blend c.blend) }).2 = [] := by
  by_cases hi : d.independant_blend.enabled = true
  · rw [if_pos hi]
    unfold ApplyBlending
    rw [if_pos hi]
    simp [applyAllTargetBlending_self]
  · rw [if_neg hi]
    unfold ApplyBlending
    rw [if_neg hi]
    cases hd : d.blend with
    | nil => simp [blendAfterGlobal, hd]
    | cons u ds =>
      cases hc : c.blend with
      | nil => rw [hd, hc] at hbl; simp at hbl
      | cons ch ct => simp [blendAfterGlobal, hd, hc, applyGlobalBlending_self]

/-- C1 counterexample: with independent blending disabled, Apply leaves the
applied singleton's blend records for targets other than 0 untouched, so a
desired state whose target-1 blend record differs from the applied one is
not fully reflected after Apply: the applied blend list is not the desired
one.  This refutes the claim that after Apply every field (including every
blend target's record) of the applied singleton equals the desired value. -/
theorem c1_counterexample :
    (OpenGLState.Apply { baseState with blend := [exBlendOff, exBlendOff] }
        { baseState with blend := [exBlendOff, exBlendOn] }).1.blend ≠
      [exBlendOff, exBlendOff] := by
  decide

/-- C1 (amended): after Apply, every field of the applied singleton equals
the corresponding field of the desired value, except that when independent
blending is disabled only blend target 0 converges and the remaining blend
records keep their previously applied values; when independent blending is
enabled the blend list converges too.  Array categories carry the source's
fixed-size invariant as equal-length hypotheses. -/
theorem c1_apply_convergence_amended (d c : OpenGLState)
    (hcm : d.color_mask.length = c.color_mask.length)
    (hvp : d.viewports.length = c.viewports.length)
    (hcd : d.clip_distance.length = c.clip_distance.length)
    (hbl : d.blend.length = c.blend.length)
    (htx : d.textures.length = c.textures.length)
    (hsm : d.samplers.length = c.samplers.length)
    (him : d.images.length = c.images.length) :
    (OpenGLState.Apply d c).1 =
      { d with blend := if d.independant_blend.enabled = true then d.blend
               else blendAfterGlobal d.blend c.blend } :=
  apply_fst_char d c hcm hvp hcd hbl htx hsm him

/-- C1 witness: the amended convergence theorem applied at a concrete pair
of states (independent blending enabled, one blend target differing). -/
theorem c1_apply_convergence_amended_witness :
    (OpenGLState.Apply { baseState with blend := [exBlendOn], independant_blend := ⟨true⟩ }
        { baseState with blend := [exBlendOff] }).1 =
      { baseState with blend := [exBlendOn], independant_blend := ⟨true⟩ } := by
  have h := c1_apply_convergence_amended
    { baseState with blend := [exBlendOn], independant_blend := ⟨true⟩ }
    { baseState with blend := [exBlendOff] } rfl rfl rfl rfl rfl rfl rfl
  simpa using h

/-- C2: calling Apply a second time in a row with the same desired value
issues zero driver calls, because the applied singleton already matches
every field the diff examines. -/
theorem c2_idempotence (d c : OpenGLState)
    (hcm : d.color_mask.length = c.color_mask.length)
    (hvp : d.viewports.length = c.viewports.length)
    (hcd : d.clip_distance.length = c.clip_distance.length)
    (hbl : d.blend.length = c.blend.length)
    (htx : d.textures.length = c.textures.length)
    (hsm : d.samplers.length = c.samplers.length)
    (him : d.images.length = c.images.length) :
    (OpenGLState.Apply d (OpenGLState.Apply d c).1).2 = [] := by
  rw [apply_fst_char d c hcm hvp hcd hbl htx hsm him]
  unfold OpenGLState.Apply
  dsimp only
  rw [applyFramebufferState_fst_self, applyShaderProgram_fst_self]
  rw [applyFramebufferState_self, applyShaderProgram_self, applyProgramPipeline_self,
    applyClipDistancesGo_self, applyFragmentColorClamp_self, applyMultisample_self,
    applyRasterizerDiscard_self, applyColorMaskGo_self, applyViewportGo_self,
    applyStencilTest_self, applyTexturesGo_self, applySamplersGo_self, applyImages_self,
    applyClipControl_self, applyRenderBuffer_self, applyBlending_second d c hbl]
  simp

/-- C2 witness: the idempotence theorem applied at a concrete pair of
states differing in several categories. -/
theorem c2_idempotence_witness :
    (OpenGLState.Apply { baseState with textures := [7, 0], samplers := [3, 4], images := [9, 9] }
        (OpenGLState.Apply
          { baseState with textures := [7, 0], samplers := [3, 4], images := [9, 9] }
          { baseState with textures := [0, 5], samplers := [0, 0], images := [0, 9] }).1).2 =
      [] :=
  c2_idempotence
    { baseState with textures := [7, 0], samplers := [3, 4], images := [9, 9] }
    { baseState with textures := [0, 5], samplers := [0, 0], images := [0, 9] }
    rfl rfl rfl rfl rfl rfl rfl

/-! Characterization of the UpdateArray scan: the batched range it reports. -/

theorem list_eq_of_getD (c n : List Handle) (h : c.length = n.length)
    (hp : ∀ j, j < c.length → c.getD j 0 = n.getD j 0) : c = n := by
  apply List.ext_getElem h
  intro i h1 h2
  have := hp i h1
  rwa [List.getD_eq_getElem _ _ h1, List.getD_eq_getElem _ _ h2] at this

theorem updateArrayGo_last (i : Nat) (c n : List Handle) (h : c.length = n.length) (l : Nat)
    (hl : l < c.length) (hdiff : c.getD l 0 ≠ n.getD l 0)
    (hafter : ∀ j, l < j → j < c.length → c.getD j 0 = n.getD j 0) :
    ∃ a, (UpdateArrayGo i c n).2 = some (a, i + l) := by
  induction c generalizing i n l with
  | nil => simp at hl
  | cons ch ct ih =>
    cases n with
    | nil => simp at h
    | cons nh nt =>
      simp only [List.length_cons, Nat.add_right_cancel_iff] at h
      cases l with
      | zero =>
        have hne : ch ≠ nh := by simpa using hdiff
        have hteq : ct = nt := by
          apply list_eq_of_getD ct nt h
          intro j hj
          have := hafter (j + 1) (Nat.succ_pos j) (by simpa using Nat.succ_lt_succ hj)
          simpa using this
        refine ⟨i, ?_⟩
        subst hteq
        simp [UpdateArrayGo, UpdateValue, updateArrayGo_self, hne]
      | succ l' =>
        have hl' : l' < ct.length := by simpa using Nat.lt_of_succ_lt_succ hl
        have hdiff' : ct.getD l' 0 ≠ nt.getD l' 0 := by simpa using hdiff
        have hafter' : ∀ j, l' < j → j < ct.length → ct.getD j 0 = nt.getD j 0 := by
          intro j hj1 hj2
          have := hafter (j + 1) (Nat.succ_lt_succ hj1) (by simpa using Nat.succ_lt_succ hj2)
          simpa using this
        obtain ⟨a', ha'⟩ := ih (i + 1) nt h l' hl' hdiff' hafter'
        unfold UpdateArrayGo
        dsimp only
        rw [ha']
        by_cases hne : ch ≠ nh
        · exact ⟨i, by simp [UpdateValue, hne, Nat.add_comm, Nat.add_assoc, Nat.add_left_comm]⟩
        · exact ⟨a', by simp [UpdateValue, hne, Nat.add_comm, Nat.add_assoc, Nat.add_left_comm]⟩

theorem updateArrayGo_first (i : Nat) (c n : List Handle) (h : c.length = n.length) (f : Nat)
    (hf : f < c.length) (hdiff : c.getD f 0 ≠ n.getD f 0)
    (hbefore : ∀ j, j < f → c.getD j 0 = n.getD j 0) :
    ∃ b, (UpdateArrayGo i c n).2 = some (i + f, b) := by
  induction c generalizing i n f with
  | nil => simp at hf
  | cons ch ct ih =>
    cases n with
    | nil => simp at h
    | cons nh nt =>
      simp only [List.length_cons, Nat.add_right_cancel_iff] at h
      cases f with
      | zero =>
        have hne : ch ≠ nh := by simpa using hdiff
        unfold UpdateArrayGo
        dsimp only
        rcases hr : (UpdateArrayGo (i + 1) ct nt).2 with _ | p
        · exact ⟨i, by simp [UpdateValue, hne, hr]⟩
        · exact ⟨p.2, by simp [UpdateValue, hne, hr]⟩
      | succ f' =>
        have heq : ch = nh := by
          have := hbefore 0 (Nat.succ_pos f')
          simpa using this
        have hf' : f' < ct.length := by simpa using Nat.lt_of_succ_lt_succ hf
        have hdiff' : ct.getD f' 0 ≠ nt.getD f' 0 := by simpa using hdiff
        have hbefore' : ∀ j, j < f' → ct.getD j 0 = nt.getD j 0 := by
          intro j hj
          have := hbefore (j + 1) (Nat.succ_lt_succ hj)
          simpa using this
        obtain ⟨b, hb⟩ := ih (i + 1) nt h f' hf' hdiff' hbefore'
        refine ⟨b, ?_⟩
        unfold UpdateArrayGo
        dsimp only
        rw [hb]
        simp [UpdateValue, heq, Nat.add_comm, Nat.add_assoc, Nat.add_left_comm]

theorem updateArrayGo_some (i : Nat) (c n : List Handle) (h : c.length = n.length) (f l : Nat)
    (hfl : f ≤ l) (hl : l < c.length)
    (hdf : c.getD f 0 ≠ n.getD f 0) (hdl : c.getD l 0 ≠ n.getD l 0)
    (hbefore : ∀ j, j < f → c.getD j 0 = n.getD j 0)
    (hafter : ∀ j, l < j → j < c.length → c.getD j 0 = n.getD j 0) :
    (UpdateArrayGo i c n).2 = some (i + f, i + l) := by
  obtain ⟨a, ha⟩ := updateArrayGo_last i c n h l hl hdl hafter
  obtain ⟨b, hb⟩ := updateArrayGo_first i c n h f (Nat.lt_of_le_of_lt hfl hl) hdf hbefore
  rw [ha] at hb
  have : a = i + f ∧ i + l = b := by
    have := Option.some.inj hb
    exact ⟨congrArg Prod.fst this, congrArg Prod.snd this⟩
  rw [ha, this.1]

/-- C3: if the image-unit slots differing from the applied array are exactly
the first and last differing indices f and l (with every other slot equal),
ApplyImages issues exactly one batched bind call covering the inclusive
range [f, l], whose payload carries the desired array's values for every
position of the range (including the unchanged in-between slots); and when
no slot differs, no call is issued. -/
theorem c3_range_bind (d c : List Handle) (hlen : c.length = d.length) (f l : Nat)
    (hfl : f ≤ l) (hl : l < c.length)
    (hdf : c.getD f 0 ≠ d.getD f 0) (hdl : c.getD l 0 ≠ d.getD l 0)
    (hmid : ∀ j, j < c.length → j ≠ f → j ≠ l → c.getD j 0 = d.getD j 0) :
    (ApplyImages d c).2 =
      [GLCall.bindImageTextures f (l - f + 1) ((d.drop f).take (l - f + 1))] ∧
    (∀ k, k ≤ l - f → ((d.drop f).take (l - f + 1)).getD k 0 = d.getD (f + k) 0) ∧
    (∀ c' : List Handle, c'.length = d.length →
      (∀ j, j < c'.length → c'.getD j 0 = d.getD j 0) → (ApplyImages d c').2 = []) := by
  have hbefore : ∀ j, j < f → c.getD j 0 = d.getD j 0 := by
    intro j hj
    exact hmid j (by omega) (by omega) (by omega)
  have hafter : ∀ j, l < j → j < c.length → c.getD j 0 = d.getD j 0 := by
    intro j hj1 hj2
    exact hmid j hj2 (by omega) (by omega)
  refine ⟨?_, ?_, ?_⟩
  · unfold ApplyImages UpdateArray
    dsimp only
    rw [updateArrayGo_some 0 c d hlen f l hfl hl hdf hdl hbefore hafter]
    simp
  · intro k hk
    have hd : d.length = c.length := hlen.symm
    have hk1 : k < (l - f + 1) := by omega
    have hfk : f + k < d.length := by omega
    have hk2 : k < ((d.drop f).take (l - f + 1)).length := by
      simp only [List.length_take, List.length_drop]
      omega
    have hk3 : k < (d.drop f).length := by
      simp only [List.length_drop]
      omega
    rw [List.getD_eq_getElem _ _ hk2, List.getD_eq_getElem _ _ hfk]
    rw [List.getElem_take _, List.getElem_drop _]
  · intro c' h1 h2
    have : c' = d := list_eq_of_getD c' d h1 h2
    subst this
    exact applyImages_self c'

/-- C3 witness: concrete arrays differing exactly at indices 2 and 5; the
single batched call covers [2, 5] and carries the desired values 7, 3, 4, 9
(slots 3 and 4 taken from the desired array even though unchanged). -/
theorem c3_range_bind_witness :
    (ApplyImages [0, 0, 7, 3, 4, 9, 0, 0] [0, 0, 5, 3, 4, 5, 0, 0]).2 =
      [GLCall.bindImageTextures 2 4 [7, 3, 4, 9]] :=
  (c3_range_bind [0, 0, 7, 3, 4, 9, 0, 0] [0, 0, 5, 3, 4, 5, 0, 0] rfl 2 5 (by decide)
    (by decide) (by decide) (by decide) (by decide)).1

/-! Characterization of the texture bind calls issued by ApplyTextures. -/

theorem applyTexturesGo_unit_lb (i : Nat) (d c : List Handle) (u v : Handle)
    (hm : GLCall.bindTextureUnit u v ∈ (ApplyTexturesGo i d c).2) : i ≤ u := by
  induction d generalizing i c with
  | nil =>
    cases c <;> simp [ApplyTexturesGo] at hm
  | cons dh dt ih =>
    cases c with
    | nil => simp [ApplyTexturesGo] at hm
    | cons ch ct =>
      simp only [ApplyTexturesGo, UpdateValue, List.mem_append] at hm
      rcases hm with hm | hm
      · rcases Bool.decide_iff (ch ≠ dh) with _
        by_cases h1 : ch ≠ dh
        · by_cases h2 : dh ≠ 0
          · simp [h1, h2] at hm
            omega
          · simp [h1, h2] at hm
        · simp [h1] at hm
      · have := ih (i + 1) ct hm
        omega

theorem applyTexturesGo_count_one (i : Nat) (d c : List Handle) (j : Nat)
    (hlen : d.length = c.length) (hj : j < d.length)
    (hne : d.getD j 0 ≠ c.getD j 0) (hnz : d.getD j 0 ≠ 0) :
    (ApplyTexturesGo i d c).2.count (GLCall.bindTextureUnit (i + j) (d.getD j 0)) = 1 := by
  induction d generalizing i c j with
  | nil => simp at hj
  | cons dh dt ih =>
    cases c with
    | nil => simp at hlen
    | cons ch ct =>
      simp only [List.length_cons, Nat.add_right_cancel_iff] at hlen
      cases j with
      | zero =>
        have hdh : dh ≠ ch := by simpa using hne
        have hdz : dh ≠ 0 := by simpa using hnz
        have hch : ch ≠ dh := fun h => hdh h.symm
        simp only [ApplyTexturesGo, UpdateValue, List.count_append]
        have hrest : (ApplyTexturesGo (i + 1) dt ct).2.count
            (GLCall.bindTextureUnit i dh) = 0 := by
          rw [List.count_eq_zero]
          intro hmem
          have := applyTexturesGo_unit_lb (i + 1) dt ct i dh hmem
          omega
        simp [hch, hdz, hrest, List.count_cons]
      | succ j' =>
        have hj' : j' < dt.length := by simpa using Nat.lt_of_succ_lt_succ hj
        have hne' : dt.getD j' 0 ≠ ct.getD j' 0 := by simpa using hne
        have hnz' : dt.getD j' 0 ≠ 0 := by simpa using hnz
        have hrec := ih (i + 1) ct j' hlen hj' hne' hnz'
        have harith : i + 1 + j' = i + (j' + 1) := by omega
        rw [harith] at hrec
        have hval : (dh :: dt).getD (j' + 1) 0 = dt.getD j' 0 := by simp
        simp only [ApplyTexturesGo, UpdateValue, List.count_append, hval]
        rw [hrec]
        by_cases h1 : ch ≠ dh
        · by_cases h2 : dh ≠ 0
          · have hne2 : GLCall.bindTextureUnit (i + (j' + 1)) (dt.getD j' 0) ≠
                GLCall.bindTextureUnit i dh := by
              intro hcon
              have := congrArg (fun x => match x with
                | GLCall.bindTextureUnit u _ => u
                | _ => 0) hcon
              simp at this
            simp [h1, h2, List.count_cons, hne2]
          · simp [h1, h2]
        · simp [h1]

theorem applyTexturesGo_zero_skip (i : Nat) (d c : List Handle) (j : Nat) (v : Handle)
    (hz : d.getD j 0 = 0) : GLCall.bindTextureUnit (i + j) v ∉ (ApplyTexturesGo i d c).2 := by
  induction d generalizing i c j with
  | nil =>
    cases c <;> simp [ApplyTexturesGo]
  | cons dh dt ih =>
    cases c with
    | nil => simp [ApplyTexturesGo]
    | cons ch ct =>
      intro hmem
      simp only [ApplyTexturesGo, UpdateValue, List.mem_append] at hmem
      rcases hmem with hmem | hmem
      · cases j with
        | zero =>
          have : dh = 0 := by simpa using hz
          by_cases h1 : ch ≠ dh
          · simp [h1, this] at hmem
          · simp [h1] at hmem
        | succ j' =>
          by_cases h1 : ch ≠ dh
          · by_cases h2 : dh ≠ 0
            · simp [h1, h2] at hmem
            · simp [h1, h2] at hmem
          · simp [h1] at hmem
      · cases j with
        | zero =>
          have := applyTexturesGo_unit_lb (i + 1) dt ct (i + 0) v hmem
          omega
        | succ j' =>
          have hz' : dt.getD j' 0 = 0 := by simpa using hz
          have harith : i + (j' + 1) = (i + 1) + j' := by omega
          rw [harith] at hmem
          exact ih (i + 1) ct j' hz' hmem

/-! Facts about the invalidation helpers. -/

theorem scrubHandle_length (H : Handle) (l : List Handle) :
    (scrubHandle H l).length = l.length := by
  induction l with
  | nil => rfl
  | cons t ts ih => simp [scrubHandle, ih]

theorem scrubHandle_getD (H : Handle) (l : List Handle) (i : Nat) (h : i < l.length) :
    (scrubHandle H l).getD i 0 = if l.getD i 0 = H then 0 else l.getD i 0 := by
  induction l generalizing i with
  | nil => simp at h
  | cons t ts ih =>
    cases i with
    | zero => simp [scrubHandle]
    | succ i' =>
      have h' : i' < ts.length := by simpa using Nat.lt_of_succ_lt_succ h
      simpa [scrubHandle] using ih i' h'

theorem apply_mem_textures (d c : OpenGLState) (x : GLCall)
    (hx : x ∈ (ApplyTexturesGo 0 d.textures c.textures).2) :
    x ∈ (OpenGLState.Apply d c).2 := by
  unfold OpenGLState.Apply
  dsimp only
  simp only [List.mem_append]
  tauto

theorem apply_mem_blending (d c : OpenGLState) (x : GLCall)
    (hx : x ∈ (ApplyBlending d c).2) : x ∈ (OpenGLState.Apply d c).2 := by
  unfold OpenGLState.Apply
  dsimp only
  simp only [List.mem_append]
  tauto

/-- C4: each invalidation helper replaces every occurrence of the handle in
its own field(s) of the state it is called on with the unbound sentinel
zero; consequently, with texture unit 3 bound to a (nonzero) handle H in
both the applied state and a desired state, after UnbindTexture H on the
applied state unit 3 is zero, and an Apply of the desired state issues a
bind call for unit 3 with the same numeric handle H instead of skipping
it. -/
theorem c4_invalidation (s : OpenGLState) (H : Handle) :
    ((s.UnbindTexture H).textures.length = s.textures.length ∧
      ∀ i, i < s.textures.length →
        (s.UnbindTexture H).textures.getD i 0 =
          if s.textures.getD i 0 = H then 0 else s.textures.getD i 0) ∧
    ((s.ResetSampler H).samplers.length = s.samplers.length ∧
      ∀ i, i < s.samplers.length →
        (s.ResetSampler H).samplers.getD i 0 =
          if s.samplers.getD i 0 = H then 0 else s.samplers.getD i 0) ∧
    ((s.ResetProgram H).draw.shader_program =
      if s.draw.shader_program = H then 0 else s.draw.shader_program) ∧
    ((s.ResetPipeline H).draw.program_pipeline =
      if s.draw.program_pipeline = H then 0 else s.draw.program_pipeline) ∧
    ((s.ResetFramebuffer H).draw.read_framebuffer =
      if s.draw.read_framebuffer = H then 0 else s.draw.read_framebuffer) ∧
    ((s.ResetFramebuffer H).draw.draw_framebuffer =
      if s.draw.draw_framebuffer = H then 0 else s.draw.draw_framebuffer) ∧
    ((s.ResetRenderbuffer H).renderbuffer =
      if s.renderbuffer = H then 0 else s.renderbuffer) ∧
    (∀ d c : OpenGLState, H ≠ 0 → 3 < d.textures.length →
      d.textures.length = c.textures.length →
      d.textures.getD 3 0 = H → c.textures.getD 3 0 = H →
      (c.UnbindTexture H).textures.getD 3 0 = 0 ∧
      GLCall.bindTextureUnit 3 H ∈ (OpenGLState.Apply d (c.UnbindTexture H)).2) := by
  refine ⟨⟨scrubHandle_length H s.textures, fun i hi => scrubHandle_getD H s.textures i hi⟩,
    ⟨scrubHandle_length H s.samplers, fun i hi => scrubHandle_getD H s.samplers i hi⟩,
    ?_, ?_, ?_, ?_, ?_, ?_⟩
  · unfold OpenGLState.ResetProgram
    split_ifs <;> rfl
  · unfold OpenGLState.ResetPipeline
    split_ifs <;> rfl
  · unfold OpenGLState.ResetFramebuffer
    dsimp only
    split_ifs <;> rfl
  · unfold OpenGLState.ResetFramebuffer
    dsimp only
    split_ifs <;> rfl
  · unfold OpenGLState.ResetRenderbuffer
    split_ifs <;> rfl
  · intro d c hH hd3 hlen hdH hcH
    have hc3 : 3 < c.textures.length := by omega
    have hz : (c.UnbindTexture H).textures.getD 3 0 = 0 := by
      show (scrubHandle H c.textures).getD 3 0 = 0
      rw [scrubHandle_getD H c.textures 3 hc3, hcH]
      simp
    refine ⟨hz, ?_⟩
    apply apply_mem_textures
    have hlen2 : d.textures.length = (c.UnbindTexture H).textures.length := by
      show d.textures.length = (scrubHandle H c.textures).length
      rw [scrubHandle_length]
      exact hlen
    have hne : d.textures.getD 3 0 ≠ (c.UnbindTexture H).textures.getD 3 0 := by
      rw [hdH, hz]
      exact hH
    have hnz : d.textures.getD 3 0 ≠ 0 := by
      rw [hdH]
      exact hH
    have hcount := applyTexturesGo_count_one 0 d.textures (c.UnbindTexture H).textures 3
      hlen2 hd3 hne hnz
    have hmem := List.count_pos_iff.mp (by rw [hcount]; omega :
      0 < (ApplyTexturesGo 0 d.textures (c.UnbindTexture H).textures).2.count
        (GLCall.bindTextureUnit (0 + 3) (d.textures.getD 3 0)))
    rw [hdH] at hmem
    simpa using hmem

/-- C4 witness: the invalidation theorem applied at a concrete state with
texture unit 3 bound to handle 7, reused as the desired binding. -/
theorem c4_invalidation_witness :
    (({ baseState with textures := [0, 0, 0, 7] } : OpenGLState).UnbindTexture
        7).textures.getD 3 0 = 0 ∧
    GLCall.bindTextureUnit 3 7 ∈ (OpenGLState.Apply { baseState with textures := [0, 0, 0, 7] }
      (({ baseState with textures := [0, 0, 0, 7] } : OpenGLState).UnbindTexture 7)).2 :=
  (c4_invalidation { baseState with textures := [0, 0, 0, 7] } 7).2.2.2.2.2.2.2
    { baseState with textures := [0, 0, 0, 7] } { baseState with textures := [0, 0, 0, 7] }
    (by decide) (by decide) rfl (by decide) (by decide)

/-- C5 counterexample: the zero-skip in ApplyTextures is not limited to
texture slot zero.  With desired textures [0, 0] against applied [0, 5],
slot 1 differs and its desired value is the unbound sentinel, and Apply
issues no call at all, refuting the claim that every texture slot other
than slot zero issues a bind call when it differs. -/
theorem c5_counterexample :
    (OpenGLState.Apply { baseState with textures := [0, 0] }
        { baseState with textures := [0, 5] }).2 = [] ∧
      ({ baseState with textures := [0, 0] } : OpenGLState).textures.getD 1 0 ≠
        ({ baseState with textures := [0, 5] } : OpenGLState).textures.getD 1 0 := by
  decide

/-- C5 (amended): during Apply, every texture slot (not only slot zero)
whose desired value is the unbound sentinel zero is skipped when it
differs - no bind call for that unit is issued - while the cached value is
still updated; every slot whose desired value is nonzero and differs
issues exactly one bind call for that unit carrying the desired handle. -/
theorem c5_texture_zero_skip (d c : List Handle) (hlen : d.length = c.length) :
    (ApplyTexturesGo 0 d c).1 = d ∧
    (∀ j v, d.getD j 0 = 0 → GLCall.bindTextureUnit j v ∉ (ApplyTexturesGo 0 d c).2) ∧
    (∀ j, j < d.length → d.getD j 0 ≠ c.getD j 0 → d.getD j 0 ≠ 0 →
      (ApplyTexturesGo 0 d c).2.count (GLCall.bindTextureUnit j (d.getD j 0)) = 1) := by
  refine ⟨applyTexturesGo_fst 0 d c hlen, ?_, ?_⟩
  · intro j v hz
    have := applyTexturesGo_zero_skip 0 d c j v hz
    simpa using this
  · intro j hj hne hnz
    have := applyTexturesGo_count_one 0 d c j hlen hj hne hnz
    simpa using this

/-- C5 witness: the amended theorem applied at concrete arrays; desired
[4, 0] against applied [9, 7]: slot 0 (nonzero, differing) binds once and
slot 1 (zero, differing) is skipped while still cached. -/
theorem c5_texture_zero_skip_witness :
    (ApplyTexturesGo 0 [4, 0] [9, 7]).1 = [4, 0] ∧
    (∀ j v, List.getD [4, 0] j 0 = 0 →
      GLCall.bindTextureUnit j v ∉ (ApplyTexturesGo 0 [4, 0] [9, 7]).2) ∧
    (∀ j, j < List.length [4, 0] → List.getD [4, 0] j 0 ≠ List.getD [9, 7] j 0 →
      List.getD [4, 0] j 0 ≠ 0 →
      (ApplyTexturesGo 0 [4, 0] [9, 7]).2.count
        (GLCall.bindTextureUnit j (List.getD [4, 0] j 0)) = 1) :=
  c5_texture_zero_skip [4, 0] [9, 7] rfl

/-- C9: each invalidation helper is a frame-preserving operation on the
state value it is called on: it may change only the field(s) of its own
category (textures; samplers; draw.shader_program; draw.program_pipeline;
the two framebuffer bindings; renderbuffer), it leaves every slot whose
value is not the given handle unchanged, and the state it returns is the
very updated instance. -/
theorem c9_frame (s : OpenGLState) (H : Handle) :
    (s.UnbindTexture H = { s with textures := (s.UnbindTexture H).textures } ∧
      ∀ i, i < s.textures.length → s.textures.getD i 0 ≠ H →
        (s.UnbindTexture H).textures.getD i 0 = s.textures.getD i 0) ∧
    (s.ResetSampler H = { s with samplers := (s.ResetSampler H).samplers } ∧
      ∀ i, i < s.samplers.length → s.samplers.getD i 0 ≠ H →
        (s.ResetSampler H).samplers.getD i 0 = s.samplers.getD i 0) ∧
    (s.ResetProgram H = { s with draw := { s.draw with
        shader_program := (s.ResetProgram H).draw.shader_program } } ∧
      (s.draw.shader_program ≠ H →
        (s.ResetProgram H).draw.shader_program = s.draw.shader_program)) ∧
    (s.ResetPipeline H = { s with draw := { s.draw with
        program_pipeline := (s.ResetPipeline H).draw.program_pipeline } } ∧
      (s.draw.program_pipeline ≠ H →
        (s.ResetPipeline H).draw.program_pipeline = s.draw.program_pipeline)) ∧
    (s.ResetFramebuffer H = { s with draw := { s.draw with
        read_framebuffer := (s.ResetFramebuffer H).draw.read_framebuffer,
        draw_framebuffer := (s.ResetFramebuffer H).draw.draw_framebuffer } } ∧
      (s.draw.read_framebuffer ≠ H →
        (s.ResetFramebuffer H).draw.read_framebuffer = s.draw.read_framebuffer) ∧
      (s.draw.draw_framebuffer ≠ H →
        (s.ResetFramebuffer H).draw.draw_framebuffer = s.draw.draw_framebuffer)) ∧
    (s.ResetRenderbuffer H = { s with renderbuffer := (s.ResetRenderbuffer H).renderbuffer } ∧
      (s.renderbuffer ≠ H → (s.ResetRenderbuffer H).renderbuffer = s.renderbuffer)) := by
  refine ⟨⟨rfl, ?_⟩, ⟨rfl, ?_⟩, ⟨?_, ?_⟩, ⟨?_, ?_⟩, ⟨?_, ?_, ?_⟩, ⟨?_, ?_⟩⟩
  · intro i hi hne
    show (scrubHandle H s.textures).getD i 0 = s.textures.getD i 0
    rw [scrubHandle_getD H s.textures i hi, if_neg hne]
  · intro i hi hne
    show (scrubHandle H s.samplers).getD i 0 = s.samplers.getD i 0
    rw [scrubHandle_getD H s.samplers i hi, if_neg hne]
  · unfold OpenGLState.ResetProgram
    split_ifs <;> rfl
  · intro hne
    unfold OpenGLState.ResetProgram
    split_ifs with h
    · exact absurd h hne
    · rfl
  · unfold OpenGLState.ResetPipeline
    split_ifs <;> rfl
  · intro hne
    unfold OpenGLState.ResetPipeline
    split_ifs with h
    · exact absurd h hne
    · rfl
  · unfold OpenGLState.ResetFramebuffer
    dsimp only
    split_ifs <;> rfl
  · intro hne
    unfold OpenGLState.ResetFramebuffer
    dsimp only
    split_ifs with h1 h2 <;> first | rfl | exact absurd h1 hne
  · intro hne
    unfold OpenGLState.ResetFramebuffer
    dsimp only
    split_ifs <;> rfl
  · unfold OpenGLState.ResetRenderbuffer
    split_ifs <;> rfl
  · intro hne
    unfold OpenGLState.ResetRenderbuffer
    split_ifs with h
    · exact absurd h hne
    · rfl

/-- C9 witness: the frame theorem applied at a concrete state, checking
that UnbindTexture 7 changes only the textures array and keeps slot 0
(which holds 5, not 7) intact. -/
theorem c9_frame_witness :
    ({ baseState with textures := [5, 7] } : OpenGLState).UnbindTexture 7 =
      { ({ baseState with textures := [5, 7] } : OpenGLState) with
        textures :=
          (({ baseState with textures := [5, 7] } : OpenGLState).UnbindTexture 7).textures } ∧
    (({ baseState with textures := [5, 7] } : OpenGLState).UnbindTexture 7).textures.getD 0 0 =
      ({ baseState with textures := [5, 7] } : OpenGLState).textures.getD 0 0 :=
  ⟨(c9_frame { baseState with textures := [5, 7] } 7).1.1,
   (c9_frame { baseState with textures := [5, 7] } 7).1.2 0 (by decide) (by decide)⟩

/-- C6 counterexample: with scissoring already enabled, the source's
EmulateViewportWithScissor does not produce the union of the viewport and
scissor rectangles: for viewport slot 0 rectangle (0,0,4,4) and scissor
(2,2,4,4) the union's clamped rectangle starts at x = 0 with width 6, but
the code keeps x = 2 with width 4 (it takes the maximum of the two left
and bottom edges instead of the minimum). -/
theorem c6_counterexample :
    ((({ baseState with viewports := [⟨0, 0, 4, 4, 0, 0, ⟨true, 2, 2, 4, 4⟩⟩] } :
        OpenGLState).EmulateViewportWithScissor.viewports.getD 0
          ⟨0, 0, 0, 0, 0, 0, ⟨false, 0, 0, 0, 0⟩⟩).scissor ≠
      scissorUnionSpec ⟨0, 0, 4, 4, 0, 0, ⟨true, 2, 2, 4, 4⟩⟩) := by
  decide

/-- C6 (amended): EmulateViewportWithScissor rewrites only viewport slot
0's scissor and always leaves scissoring enabled.  When scissoring was
already enabled, the new rectangle's left and bottom edges are the maxima
of the viewport's and scissor's left and bottom edges, its right and top
edges are the maxima of the two right and top edges (not the union, whose
left and bottom would take the minima), and all four stored components are
clamped to be nonnegative.  When scissoring was not enabled, the scissor
becomes exactly the viewport rectangle with scissoring turned on. -/
theorem c6_emulate_viewport (s : OpenGLState) (v : Viewport) (vt : List Viewport)
    (hv : s.viewports = v :: vt) :
    s.EmulateViewportWithScissor.viewports = Viewport.emulateWithScissor v :: vt ∧
    Viewport.emulateWithScissor v =
      { v with scissor := (Viewport.emulateWithScissor v).scissor } ∧
    (Viewport.emulateWithScissor v).scissor.enabled = true ∧
    (v.scissor.enabled = true →
      (Viewport.emulateWithScissor v).scissor.x = max (max v.x v.scissor.x) 0 ∧
      (Viewport.emulateWithScissor v).scissor.y = max (max v.y v.scissor.y) 0 ∧
      (Viewport.emulateWithScissor v).scissor.width =
        max (max (v.x + v.width) (v.scissor.x + v.scissor.width) - max v.x v.scissor.x) 0 ∧
      (Viewport.emulateWithScissor v).scissor.height =
        max (max (v.y + v.height) (v.scissor.y + v.scissor.height) - max v.y v.scissor.y) 0 ∧
      0 ≤ (Viewport.emulateWithScissor v).scissor.x ∧
      0 ≤ (Viewport.emulateWithScissor v).scissor.y ∧
      0 ≤ (Viewport.emulateWithScissor v).scissor.width ∧
      0 ≤ (Viewport.emulateWithScissor v).scissor.height) ∧
    (v.scissor.enabled = false →
      (Viewport.emulateWithScissor v).scissor = ⟨true, v.x, v.y, v.width, v.height⟩) := by
  refine ⟨?_, ?_, ?_, ?_, ?_⟩
  · simp only [OpenGLState.EmulateViewportWithScissor, hv]
  · unfold Viewport.emulateWithScissor
    split_ifs <;> rfl
  · unfold Viewport.emulateWithScissor
    dsimp only
    split_ifs with h
    · simpa using h
    · rfl
  · intro h
    unfold Viewport.emulateWithScissor
    rw [if_pos h]
    refine ⟨rfl, rfl, rfl, rfl, ?_, ?_, ?_, ?_⟩ <;> exact le_max_right _ _
  · intro h
    unfold Viewport.emulateWithScissor
    rw [if_neg (by simp [h])]

/-- C6 witness: the amended theorem applied at the specification's
scenario, viewport slot 0 of 1280 by 720 at the origin with scissoring
disabled: the result is scissoring enabled with rectangle (0,0,1280,720). -/
theorem c6_emulate_viewport_witness :
    ({ baseState with viewports := [⟨0, 0, 1280, 720, 0, 0, ⟨false, 0, 0, 0, 0⟩⟩] } :
        OpenGLState).EmulateViewportWithScissor.viewports =
      [Viewport.emulateWithScissor ⟨0, 0, 1280, 720, 0, 0, ⟨false, 0, 0, 0, 0⟩⟩] ∧
    (Viewport.emulateWithScissor ⟨0, 0, 1280, 720, 0, 0, ⟨false, 0, 0, 0, 0⟩⟩).scissor =
      ⟨true, 0, 0, 1280, 720⟩ :=
  ⟨(c6_emulate_viewport
      { baseState with viewports := [⟨0, 0, 1280, 720, 0, 0, ⟨false, 0, 0, 0, 0⟩⟩] }
      ⟨0, 0, 1280, 720, 0, 0, ⟨false, 0, 0, 0, 0⟩⟩ [] rfl).1,
   (c6_emulate_viewport
      { baseState with viewports := [⟨0, 0, 1280, 720, 0, 0, ⟨false, 0, 0, 0, 0⟩⟩] }
      ⟨0, 0, 1280, 720, 0, 0, ⟨false, 0, 0, 0, 0⟩⟩ [] rfl).2.2.2.2 rfl⟩

/-! Blend-mode transition facts. -/

theorem isBlendCallFor_unique (k l : Nat) (x : GLCall) (h1 : IsBlendCallFor k x)
    (h2 : IsBlendCallFor l x) : k = l := by
  cases x <;> simp_all [IsBlendCallFor]

theorem mem_ite_singleton {p : Prop} [Decidable p] (a x : GLCall)
    (h : x ∈ (if p then [a] else [])) : x = a := by
  split at h
  · simpa using h
  · simp at h

theorem applyTargetBlending_for (t : Nat) (f : Bool) (u c : Blend) (x : GLCall)
    (hx : x ∈ (ApplyTargetBlending t f u c).2) : IsBlendCallFor t x := by
  unfold ApplyTargetBlending at hx
  dsimp only at hx
  simp only [List.mem_append] at hx
  rcases hx with (hx | hx) | hx <;> rw [mem_ite_singleton _ _ hx] <;> simp [IsBlendCallFor]

theorem applyAllTargetBlending_lb (f : Bool) (t : Nat) (d c : List Blend) (x : GLCall)
    (hx : x ∈ (ApplyAllTargetBlending f t d c).2) : ∃ k, t ≤ k ∧ IsBlendCallFor k x := by
  induction d generalizing t c with
  | nil => cases c <;> simp [ApplyAllTargetBlending] at hx
  | cons u ut ih =>
    cases c with
    | nil => simp [ApplyAllTargetBlending] at hx
    | cons ch ct =>
      simp only [ApplyAllTargetBlending, List.mem_append] at hx
      rcases hx with hx | hx
      · exact ⟨t, le_refl t, applyTargetBlending_for t f u ch x hx⟩
      · obtain ⟨k, hk1, hk2⟩ := ih (t + 1) ct hx
        exact ⟨k, by omega, hk2⟩

theorem applyTargetBlending_force_calls (t : Nat) (u : Blend) :
    (ApplyTargetBlending t true u u).2 = [GLCall.enableIndexed GL_BLEND t u.enabled] := by
  unfold ApplyTargetBlending
  dsimp only
  rw [if_pos (Or.inr rfl)]
  simp

theorem applyAllTargetBlending_unchanged (t : Nat) (d c : List Blend) (j : Nat) (x : GLCall)
    (hj : j < d.length) (heq : d.getD j exBlendOff = c.getD j exBlendOff)
    (hx : IsBlendCallFor (t + j) x) : x ∉ (ApplyAllTargetBlending false t d c).2 := by
  induction d generalizing t c j with
  | nil => simp at hj
  | cons u ut ih =>
    cases c with
    | nil => simp [ApplyAllTargetBlending]
    | cons ch ct =>
      intro hmem
      simp only [ApplyAllTargetBlending, List.mem_append] at hmem
      cases j with
      | zero =>
        have hu : u = ch := by simpa using heq
        rcases hmem with hmem | hmem
        · rw [hu, applyTargetBlending_self] at hmem
          simp at hmem
        · obtain ⟨k, hk1, hk2⟩ := applyAllTargetBlending_lb false (t + 1) ut ct x hmem
          have := isBlendCallFor_unique k (t + 0) x hk2 (by simpa using hx)
          omega
      | succ jp =>
        rcases hmem with hmem | hmem
        · have hfor := applyTargetBlending_for t false u ch x hmem
          have := isBlendCallFor_unique t (t + (jp + 1)) x hfor hx
          omega
        · have hj2 : jp < ut.length := by simpa using Nat.lt_of_succ_lt_succ hj
          have heq2 : ut.getD jp exBlendOff = ct.getD jp exBlendOff := by simpa using heq
          have hx2 : IsBlendCallFor ((t + 1) + jp) x := by
            have harith : (t + 1) + jp = t + (jp + 1) := by omega
            rw [harith]
            exact hx
          exact ih (t + 1) ct jp hj2 heq2 hx2 hmem

/-- C7 counterexample: on a false-to-true transition of
independant_blend.enabled with target 0's blend record identical to the
applied one, Apply issues exactly the single indexed blend-enable call:
the blend function and blend equation calls for target 0 are not
re-issued, so target 0's blend state is not fully re-applied (its calls
are not all re-issued) as the claim states. -/
theorem c7_counterexample :
    (OpenGLState.Apply { baseState with independant_blend := ⟨true⟩, blend := [exBlendOn] }
        { baseState with blend := [exBlendOn] }).2 =
      [GLCall.enableIndexed GL_BLEND 0 true] ∧
    GLCall.blendFuncSeparatei 0 0 0 0 0 ∉
      (OpenGLState.Apply { baseState with independant_blend := ⟨true⟩, blend := [exBlendOn] }
        { baseState with blend := [exBlendOn] }).2 ∧
    GLCall.blendEquationSeparatei 0 0 0 ∉
      (OpenGLState.Apply { baseState with independant_blend := ⟨true⟩, blend := [exBlendOn] }
        { baseState with blend := [exBlendOn] }).2 := by
  decide

/-- C7 (amended): when Apply runs with desired independant_blend.enabled
true and applied false and none of target 0's blend fields differ, the
forced re-application of target 0 consists of exactly the indexed
blend-enable call - that call is issued (and appears in Apply's output)
while the diff-gated blend function and equation calls are not; and when
the flag did not transition, each target's blend state is applied only on
change: with the flag on, a target whose record equals the applied one
contributes no blending call, and with the flag off, an unchanged target
0 record produces no blending call at all. -/
theorem c7_blend_transition (d c : OpenGLState) :
    (∀ u ds es, d.blend = u :: ds → c.blend = u :: es →
      d.independant_blend.enabled = true → c.independant_blend.enabled = false →
      (ApplyBlending d c).2 =
        GLCall.enableIndexed GL_BLEND 0 u.enabled ::
          (ApplyAllTargetBlending true 1 ds es).2 ∧
      GLCall.enableIndexed GL_BLEND 0 u.enabled ∈ (OpenGLState.Apply d c).2 ∧
      (∀ x, IsBlendCallFor 0 x → x ∈ (ApplyBlending d c).2 →
        x = GLCall.enableIndexed GL_BLEND 0 u.enabled)) ∧
    (d.independant_blend.enabled = true → c.independant_blend.enabled = true →
      ∀ j, j < d.blend.length → d.blend.getD j exBlendOff = c.blend.getD j exBlendOff →
        ∀ x, IsBlendCallFor j x → x ∉ (ApplyBlending d c).2) ∧
    (∀ u ds es, d.blend = u :: ds → c.blend = u :: es →
      d.independant_blend.enabled = false → (ApplyBlending d c).2 = []) := by
  refine ⟨?_, ?_, ?_⟩
  · intro u ds es hd hc h1 h2
    have heqc : (ApplyBlending d c).2 =
        GLCall.enableIndexed GL_BLEND 0 u.enabled ::
          (ApplyAllTargetBlending true 1 ds es).2 := by
      unfold ApplyBlending
      rw [if_pos h1]
      dsimp only
      rw [hd, hc, h1, h2]
      have hdec : decide ((true : Bool) ≠ false) = true := rfl
      rw [hdec]
      simp only [ApplyAllTargetBlending]
      rw [applyTargetBlending_force_calls]
      simp
    refine ⟨heqc, ?_, ?_⟩
    · apply apply_mem_blending
      rw [heqc]
      exact List.mem_cons_self _ _
    · intro x hx hmem
      rw [heqc] at hmem
      rcases List.mem_cons.mp hmem with h | h
      · exact h
      · obtain ⟨k, hk1, hk2⟩ := applyAllTargetBlending_lb true 1 ds es x h
        have := isBlendCallFor_unique k 0 x hk2 hx
        omega
  · intro h1 h2 j hj heq x hx
    unfold ApplyBlending
    rw [if_pos h1]
    dsimp only
    have hdec : decide (d.independant_blend.enabled ≠ c.independant_blend.enabled) = false := by
      rw [h1, h2]
      rfl
    rw [hdec]
    exact applyAllTargetBlending_unchanged 0 d.blend c.blend j x hj heq (by simpa using hx)
  · intro u ds es hd hc h1
    unfold ApplyBlending
    rw [if_neg (by simp [h1])]
    rw [hd, hc]
    dsimp only
    simp [applyGlobalBlending_self]

/-- C7 witness: the amended theorem applied at concrete states whose
target-0 blend records are equal: the flag transition issues the indexed
enable call for target 0 inside Apply's output, and without a transition
the unchanged blend state yields no blending call. -/
theorem c7_blend_transition_witness :
    GLCall.enableIndexed GL_BLEND 0 true ∈
      (OpenGLState.Apply { baseState with independant_blend := ⟨true⟩, blend := [exBlendOn] }
        { baseState with blend := [exBlendOn] }).2 ∧
    (ApplyBlending { baseState with blend := [exBlendOn] }
      { baseState with blend := [exBlendOn] }).2 = [] :=
  ⟨((c7_blend_transition { baseState with independant_blend := ⟨true⟩, blend := [exBlendOn] }
      { baseState with blend := [exBlendOn] }).1 exBlendOn [] [] rfl rfl rfl rfl).2.1,
   (c7_blend_transition { baseState with blend := [exBlendOn] }
      { baseState with blend := [exBlendOn] }).2.2 exBlendOn [] [] rfl rfl rfl⟩

/-- C8 counterexample: the reserved uniform block is subtracted from every
probed stage's reported uniform-block limit, not only from the vertex
stage's.  With every stage reporting 8 in every category, entry 2 has
uniform-buffer base 15 = 8 + (8 - 1), not 16 = 8 + 8, refuting the claim
that each entry adds the previous stage's reported capacity unchanged. -/
theorem c8_counterexample :
    ¬ ((deviceBaseBindings ⟨⟨8, 8, 8, 8⟩, ⟨8, 8, 8, 8⟩, ⟨8, 8, 8, 8⟩, ⟨8, 8, 8, 8⟩⟩).getD 2
          ⟨0, 0, 0, 0⟩).uniform_buffer =
       ((deviceBaseBindings ⟨⟨8, 8, 8, 8⟩, ⟨8, 8, 8, 8⟩, ⟨8, 8, 8, 8⟩, ⟨8, 8, 8, 8⟩⟩).getD 1
          ⟨0, 0, 0, 0⟩).uniform_buffer + 8 := by
  decide

/-- C8 (amended): under realistic driver limits the constructor's table is:
entry 0 reserves exactly one uniform-buffer slot and nothing else; each of
the four cumulative entries adds the previous stage's reported capacities,
with one reserved slot subtracted from every stage's reported
uniform-block limit (not only the vertex stage's); and the compute entry
is the independent zero table. -/
theorem c8_base_bindings (lim : DeviceLimits) (hs : lim.Small) :
    deviceBaseBindings lim =
      [⟨1, 0, 0, 0⟩,
       ⟨1 + (lim.vertex.uniform_blocks - 1), lim.vertex.shader_storage_blocks,
        lim.vertex.texture_image_units, lim.vertex.image_uniforms⟩,
       ⟨1 + (lim.vertex.uniform_blocks - 1) + (lim.tess_control.uniform_blocks - 1),
        lim.vertex.shader_storage_blocks + lim.tess_control.shader_storage_blocks,
        lim.vertex.texture_image_units + lim.tess_control.texture_image_units,
        lim.vertex.image_uniforms + lim.tess_control.image_uniforms⟩,
       ⟨1 + (lim.vertex.uniform_blocks - 1) + (lim.tess_control.uniform_blocks - 1) +
          (lim.tess_eval.uniform_blocks - 1),
        lim.vertex.shader_storage_blocks + lim.tess_control.shader_storage_blocks +
          lim.tess_eval.shader_storage_blocks,
        lim.vertex.texture_image_units + lim.tess_control.texture_image_units +
          lim.tess_eval.texture_image_units,
        lim.vertex.image_uniforms + lim.tess_control.image_uniforms +
          lim.tess_eval.image_uniforms⟩,
       ⟨1 + (lim.vertex.uniform_blocks - 1) + (lim.tess_control.uniform_blocks - 1) +
          (lim.tess_eval.uniform_blocks - 1) + (lim.geometry.uniform_blocks - 1),
        lim.vertex.shader_storage_blocks + lim.tess_control.shader_storage_blocks +
          lim.tess_eval.shader_storage_blocks + lim.geometry.shader_storage_blocks,
        lim.vertex.texture_image_units + lim.tess_control.texture_image_units +
          lim.tess_eval.texture_image_units + lim.geometry.texture_image_units,
        lim.vertex.image_uniforms + lim.tess_control.image_uniforms +
          lim.tess_eval.image_uniforms + lim.geometry.image_uniforms⟩,
       ⟨0, 0, 0, 0⟩] := by
  obtain ⟨⟨hv1, hv2, hv3, hv4, hv5⟩, ⟨ht1, ht2, ht3, ht4, ht5⟩, ⟨he1, he2, he3, he4, he5⟩,
    ⟨hg1, hg2, hg3, hg4, hg5⟩⟩ := hs
  have h1 : (BaseBindings.mk 1 0 0 0).add (BuildBaseBindings lim.vertex.uniform_blocks
      lim.vertex.shader_storage_blocks lim.vertex.texture_image_units
      lim.vertex.image_uniforms) =
      BaseBindings.mk (1 + (lim.vertex.uniform_blocks - 1)) lim.vertex.shader_storage_blocks
        lim.vertex.texture_image_units lim.vertex.image_uniforms := by
    simp only [BuildBaseBindings, BaseBindings.add, u32Add, u32Sub, U32MOD,
      ReservedUniformBlocks, BaseBindings.mk.injEq]
    repeat' apply And.intro
    all_goals omega
  have h2 : (BaseBindings.mk (1 + (lim.vertex.uniform_blocks - 1))
      lim.vertex.shader_storage_blocks lim.vertex.texture_image_units
      lim.vertex.image_uniforms).add (BuildBaseBindings lim.tess_control.uniform_blocks
        lim.tess_control.shader_storage_blocks lim.tess_control.texture_image_units
        lim.tess_control.image_uniforms) =
      BaseBindings.mk
        (1 + (lim.vertex.uniform_blocks - 1) + (lim.tess_control.uniform_blocks - 1))
        (lim.vertex.shader_storage_blocks + lim.tess_control.shader_storage_blocks)
        (lim.vertex.texture_image_units + lim.tess_control.texture_image_units)
        (lim.vertex.image_uniforms + lim.tess_control.image_uniforms) := by
    simp only [BuildBaseBindings, BaseBindings.add, u32Add, u32Sub, U32MOD,
      ReservedUniformBlocks, BaseBindings.mk.injEq]
    repeat' apply And.intro
    all_goals omega
  have h3 : (BaseBindings.mk
      (1 + (lim.vertex.uniform_blocks - 1) + (lim.tess_control.uniform_blocks - 1))
      (lim.vertex.shader_storage_blocks + lim.tess_control.shader_storage_blocks)
      (lim.vertex.texture_image_units + lim.tess_control.texture_image_units)
      (lim.vertex.image_uniforms + lim.tess_control.image_uniforms)).add
        (BuildBaseBindings lim.tess_eval.uniform_blocks
          lim.tess_eval.shader_storage_blocks lim.tess_eval.texture_image_units
          lim.tess_eval.image_uniforms) =
      BaseBindings.mk
        (1 + (lim.vertex.uniform_blocks - 1) + (lim.tess_control.uniform_blocks - 1) +
          (lim.tess_eval.uniform_blocks - 1))
        (lim.vertex.shader_storage_blocks + lim.tess_control.shader_storage_blocks +
          lim.tess_eval.shader_storage_blocks)
        (lim.vertex.texture_image_units + lim.tess_control.texture_image_units +
          lim.tess_eval.texture_image_units)
        (lim.vertex.image_uniforms + lim.tess_control.image_uniforms +
          lim.tess_eval.image_uniforms) := by
    simp only [BuildBaseBindings, BaseBindings.add, u32Add, u32Sub, U32MOD,
      ReservedUniformBlocks, BaseBindings.mk.injEq]
    repeat' apply And.intro
    all_goals omega
  have h4 : (BaseBindings.mk
      (1 + (lim.vertex.uniform_blocks - 1) + (lim.tess_control.uniform_blocks - 1) +
        (lim.tess_eval.uniform_blocks - 1))
      (lim.vertex.shader_storage_blocks + lim.tess_control.shader_storage_blocks +
        lim.tess_eval.shader_storage_blocks)
      (lim.vertex.texture_image_units + lim.tess_control.texture_image_units +
        lim.tess_eval.texture_image_units)
      (lim.vertex.image_uniforms + lim.tess_control.image_uniforms +
        lim.tess_eval.image_uniforms)).add
        (BuildBaseBindings lim.geometry.uniform_blocks lim.geometry.shader_storage_blocks
          lim.geometry.texture_image_units lim.geometry.image_uniforms) =
      BaseBindings.mk
        (1 + (lim.vertex.uniform_blocks - 1) + (lim.tess_control.uniform_blocks - 1) +
          (lim.tess_eval.uniform_blocks - 1) + (lim.geometry.uniform_blocks - 1))
        (lim.vertex.shader_storage_blocks + lim.tess_control.shader_storage_blocks +
          lim.tess_eval.shader_storage_blocks + lim.geometry.shader_storage_blocks)
        (lim.vertex.texture_image_units + lim.tess_control.texture_image_units +
          lim.tess_eval.texture_image_units + lim.geometry.texture_image_units)
        (lim.vertex.image_uniforms + lim.tess_control.image_uniforms +
          lim.tess_eval.image_uniforms + lim.geometry.image_uniforms) := by
    simp only [BuildBaseBindings, BaseBindings.add, u32Add, u32Sub, U32MOD,
      ReservedUniformBlocks, BaseBindings.mk.injEq]
    repeat' apply And.intro
    all_goals omega
  simp only [deviceBaseBindings, ReservedUniformBlocks]
  rw [h1, h2, h3, h4]

/-- C8 witness: the amended table theorem applied at limits reporting 8 in
every category for every stage. -/
theorem c8_base_bindings_witness :
    deviceBaseBindings ⟨⟨8, 8, 8, 8⟩, ⟨8, 8, 8, 8⟩, ⟨8, 8, 8, 8⟩, ⟨8, 8, 8, 8⟩⟩ =
      [⟨1, 0, 0, 0⟩, ⟨8, 8, 8, 8⟩, ⟨15, 16, 16, 16⟩, ⟨22, 24, 24, 24⟩, ⟨29, 32, 32, 32⟩,
       ⟨0, 0, 0, 0⟩] :=
  c8_base_bindings ⟨⟨8, 8, 8, 8⟩, ⟨8, 8, 8, 8⟩, ⟨8, 8, 8, 8⟩, ⟨8, 8, 8, 8⟩⟩
    (by unfold DeviceLimits.Small StageLimits.Small; decide)

/-! The component-indexing probe is total: every checked access is in
bounds. -/

theorem testComponentIndexingBugGo_isSome (results : Nat → Nat) (l : List Nat)
    (h : ∀ i, i ∈ l → i < componentTestValues.length) :
    ∃ b, TestComponentIndexingBugGo results l = some b := by
  induction l with
  | nil => exact ⟨false, rfl⟩
  | cons i is ih =>
    have hi : i < componentTestValues.length := h i (List.mem_cons_self i is)
    obtain ⟨v, hv⟩ : ∃ v, componentTestValues.get? i = some v :=
      ⟨componentTestValues.get ⟨i, hi⟩, List.get?_eq_get hi⟩
    by_cases hr : results i ≠ v
    · exact ⟨true, by unfold TestComponentIndexingBugGo; rw [hv]; simp [hr]⟩
    · obtain ⟨b, hb⟩ := ih (fun j hj => h j (List.mem_cons_of_mem i hj))
      exact ⟨b, by unfold TestComponentIndexingBugGo; rw [hv]; simp [hr, hb]⟩

/-- C10: in the component-indexing probe, every bounds-checked access to
the known eight-element word array is in bounds because the loop runs over
indices 4 to 7, so the out-of-range failure branch is unreachable and the
comparison loop terminates with a verdict for every possible sequence of
driver readbacks. -/
theorem c10_probe_bounds :
    (∀ i, i ∈ List.range' 4 4 → i < componentTestValues.length) ∧
    (∀ results : Nat → Nat, ∃ b, TestComponentIndexingBug results = some b) := by
  constructor
  · decide
  · intro results
    exact testComponentIndexingBugGo_isSome results (List.range' 4 4) (by decide)

/-- C10 witness: the bound fact at loop index 4 and the probe's totality at
a concrete driver-readback oracle. -/
theorem c10_probe_bounds_witness :
    4 ∈ List.range' 4 4 ∧ 4 < componentTestValues.length ∧
    (∃ b, TestComponentIndexingBug (fun _ => 0) = some b) :=
  ⟨by decide, c10_probe_bounds.1 4 (by decide), c10_probe_bounds.2 (fun _ => 0)⟩
